import Mathlib

/-!
# armnn: NeonWorkloadFactory and BatchNormalizationLayer

A shallow embedding of `src/armnn/backends/NeonWorkloadFactory.cpp` and
`src/armnn/layers/BatchNormalizationLayer.cpp`.

Conventions of the embedding:

* a C++ function that can throw returns `Except Failure α`;
* a nullable pointer (`std::unique_ptr<T>`, `T*`) is an `Option`, with `none` for `nullptr`;
* `unsigned int` values are `Nat`, `int` values are `Int`;
* the two branches of `#ifdef ARMCOMPUTENEON_ENABLED` are the namespaces
  `NeonWorkloadFactory.ArmComputeNeon` and `NeonWorkloadFactory.NoArmCompute`;
* `BOOST_ASSERT` is compiled in or out by the build, which is the `asserts` argument.
-/

namespace armnn

/-! ## Data model -/

/-- Element data types of a tensor (`armnn::DataType`). -/
inductive DataType where
  | Float16
  | Float32
  | QuantisedAsymm8
  | Signed32
  deriving DecidableEq, Repr

/-- The ways in which a call can end without returning. `FatalError` is a fatal programming error,
not recoverable. `UndefinedBehaviour` marks executions on which the C++ standard places no
requirement (a read outside an array, a `static_cast` to the wrong dynamic type); nothing is
proved about what follows them. -/
inductive Failure where
  | InvalidArgumentException
  | LayerValidationException
  | bad_numeric_cast
  | AssertionFailed
  | FatalError
  | UndefinedBehaviour
  deriving DecidableEq, Repr

/-- Embeds `armnn::MaxNumOfTensorDimensions`: the bound on the rank of a `TensorShape` (the constant is
declared in `armnn/Types.hpp`, outside these sources). -/
def MaxNumOfTensorDimensions : Nat := 4

/-- Embeds `armnn::TensorShape`: an ordered sequence of dimensions of bounded rank. -/
structure TensorShape where
  m_Dimensions : List Nat
  rank_le : m_Dimensions.length ≤ MaxNumOfTensorDimensions
  deriving DecidableEq

/-- Embeds `TensorShape::GetNumDimensions`. -/
def TensorShape.GetNumDimensions (s : TensorShape) : Nat := s.m_Dimensions.length

/-- Embeds `armnn::TensorInfo`: shape, data type and quantization metadata of one tensor. The
quantization scale is a `float`, held as its bit pattern. -/
structure TensorInfo where
  m_Shape : TensorShape
  m_DataType : DataType
  m_QuantizationScale : Nat
  m_QuantizationOffset : Int
  deriving DecidableEq

/-- Embeds `TensorInfo::GetShape`. -/
def TensorInfo.GetShape (t : TensorInfo) : TensorShape := t.m_Shape

/-- Embeds `TensorInfo::GetDataType`. -/
def TensorInfo.GetDataType (t : TensorInfo) : DataType := t.m_DataType

/-- Embeds `ITensorHandle::Type`: the backend a tensor handle belongs to. -/
inductive ITensorHandle.Kind where
  | Cpu
  | CL
  | Neon
  deriving DecidableEq, Repr

/-- Embeds `armnn::ITensorHandle`, as far as the factory looks at it: its backend and its shape. -/
structure ITensorHandle where
  m_Type : ITensorHandle.Kind
  m_Shape : TensorShape
  deriving DecidableEq

/-- Embeds `ITensorHandle::GetType`. -/
def ITensorHandle.GetType (h : ITensorHandle) : ITensorHandle.Kind := h.m_Type

/-- Embeds `armnn::QueueDescriptor`: the input and output handles bound to one operator instance.
A `none` entry is a null `ITensorHandle*`. -/
structure QueueDescriptor where
  m_Inputs : List (Option ITensorHandle)
  m_Outputs : List (Option ITensorHandle)
  deriving DecidableEq

/-- Embeds `armnn::WorkloadInfo`: the tensor infos of the inputs and outputs of one operator instance. -/
structure WorkloadInfo where
  m_InputTensorInfos : List TensorInfo
  m_OutputTensorInfos : List TensorInfo
  deriving DecidableEq

/-- Address of a constant tensor handle object (a `ScopedCpuTensorHandle` on the heap). -/
abbrev HandleAddr := Nat

/-- Embeds `armnn::BatchNormalizationDescriptor`: the parameter of the operator, `float m_Eps`, held as
its bit pattern. -/
structure BatchNormalizationDescriptor where
  m_Eps : Nat
  deriving DecidableEq, Repr

/-- Embeds `armnn::BatchNormalizationQueueDescriptor`: a queue descriptor with the operator parameters and
the four constant references (`const ConstCpuTensorHandle*`, `none` for `nullptr`). A default
constructed descriptor has empty handle lists and null constants. -/
structure BatchNormalizationQueueDescriptor extends QueueDescriptor where
  m_Parameters : BatchNormalizationDescriptor
  m_Mean : Option HandleAddr
  m_Variance : Option HandleAddr
  m_Beta : Option HandleAddr
  m_Gamma : Option HandleAddr
  deriving DecidableEq

/-- A default constructed `BatchNormalizationQueueDescriptor`: no handles, null constants. Its
parameters are overwritten before the descriptor is used. -/
def BatchNormalizationQueueDescriptor.empty : BatchNormalizationQueueDescriptor :=
  { m_Inputs := [], m_Outputs := [], m_Parameters := ⟨0⟩,
    m_Mean := none, m_Variance := none, m_Beta := none, m_Gamma := none }

/-! The other queue descriptor types are declared in `WorkloadData.hpp`, outside these sources.
The factory reads none of their operator-specific members, so each is the base descriptor. -/

abbrev MemCopyQueueDescriptor := QueueDescriptor
abbrev InputQueueDescriptor := QueueDescriptor
abbrev OutputQueueDescriptor := QueueDescriptor
abbrev ActivationQueueDescriptor := QueueDescriptor
abbrev SoftmaxQueueDescriptor := QueueDescriptor
abbrev SplitterQueueDescriptor := QueueDescriptor
abbrev MergerQueueDescriptor := QueueDescriptor
abbrev FullyConnectedQueueDescriptor := QueueDescriptor
abbrev PermuteQueueDescriptor := QueueDescriptor
abbrev Pooling2dQueueDescriptor := QueueDescriptor
abbrev Convolution2dQueueDescriptor := QueueDescriptor
abbrev DepthwiseConvolution2dQueueDescriptor := QueueDescriptor
abbrev NormalizationQueueDescriptor := QueueDescriptor
abbrev AdditionQueueDescriptor := QueueDescriptor
abbrev MultiplicationQueueDescriptor := QueueDescriptor
abbrev ResizeBilinearQueueDescriptor := QueueDescriptor
abbrev FakeQuantizationQueueDescriptor := QueueDescriptor
abbrev L2NormalizationQueueDescriptor := QueueDescriptor
abbrev ConstantQueueDescriptor := QueueDescriptor
abbrev ReshapeQueueDescriptor := QueueDescriptor
abbrev FloorQueueDescriptor := QueueDescriptor
abbrev LstmQueueDescriptor := QueueDescriptor
abbrev ConvertFp16ToFp32QueueDescriptor := QueueDescriptor
abbrev ConvertFp32ToFp16QueueDescriptor := QueueDescriptor

/-- The workload classes named in `NeonWorkloadFactory.cpp`. `NullWorkload` is the marker type for
"no implementation for this data type"; no object of it is ever built. -/
inductive WorkloadType where
  | NullWorkload
  | CopyMemGenericWorkload
  | NeonActivationFloat32Workload
  | NeonActivationUint8Workload
  | NeonSoftmaxFloat32Workload
  | NeonSoftmaxUint8Workload
  | NeonSplitterFloat32Workload
  | NeonSplitterUint8Workload
  | NeonMergerFloat32Workload
  | NeonMergerUint8Workload
  | NeonFullyConnectedFloat32Workload
  | NeonPermuteFloatWorkload
  | NeonPermuteUint8Workload
  | NeonPooling2dFloat32Workload
  | NeonPooling2dUint8Workload
  | NeonConvolution2dFloat32Workload
  | NeonConvolution2dUint8Workload
  | NeonDepthwiseConvolutionFloat32Workload
  | NeonDepthwiseConvolutionUint8Workload
  | NeonNormalizationFloat32Workload
  | NeonAdditionFloat32Workload
  | NeonMultiplicationFloat32Workload
  | NeonBatchNormalizationFloat32Workload
  | NeonL2NormalizationFloat32Workload
  | NeonConstantFloat32Workload
  | NeonConstantUint8Workload
  | NeonReshapeFloat32Workload
  | NeonReshapeUint8Workload
  | NeonFloorFloat32Workload
  | NeonLstmFloat32Workload
  | NeonConvertFp16ToFp32Workload
  | NeonConvertFp32ToFp16Workload
  deriving DecidableEq, Repr

/-- An `IWorkload` object: the class it was built from and the workload info it is bound to. -/
structure IWorkload where
  m_Class : WorkloadType
  m_Info : WorkloadInfo
  deriving DecidableEq

/-- The input list of the descriptor is empty or its first entry is a null pointer. -/
def QueueDescriptor.FirstInputMissing (descriptor : QueueDescriptor) : Prop :=
  descriptor.m_Inputs = [] ∨ ∃ rest, descriptor.m_Inputs = none :: rest

/-- The input list of the descriptor is non-empty and its first entry is a non-null pointer. -/
def QueueDescriptor.FirstInputPresent (descriptor : QueueDescriptor) : Prop :=
  ∃ first rest, descriptor.m_Inputs = some first :: rest

/-- What a `Create<Op>` call yields: a thrown failure, or a `std::unique_ptr<IWorkload>` that may
be null. -/
abbrev CreateResult := Except Failure (Option IWorkload)

/-- The call returned `nullptr`, without throwing. -/
def ReturnsNull {α : Type} (r : Except Failure (Option α)) : Prop := r = Except.ok none

/-- Embeds `BOOST_ASSERT(cond)` / `BOOST_ASSERT_MSG(cond, msg)`: aborts when the condition is false in a
build that compiles assertions in, and is no code at all in a build that compiles them out. -/
def BOOST_ASSERT (asserts : Bool) (cond : Bool) : Except Failure Unit :=
  if asserts && !cond then throw Failure.AssertionFailed else pure ()

/-! ## MakeWorkloadHelper -/

/-- Modelled from the spec: the runtime data type that `MakeWorkload` dispatches on
(`MakeWorkloadHelper.hpp` is not among the sources). The spec says only that dispatch is "from the
runtime dtype"; here it is the data type of the first tensor the workload info lists, inputs before
outputs, and there is none when the info lists no tensor. -/
def WorkloadInfo.runtimeDataType (info : WorkloadInfo) : Option DataType :=
  match info.m_InputTensorInfos, info.m_OutputTensorInfos with
  | t :: _, _ => some t.GetDataType
  | [], t :: _ => some t.GetDataType
  | [], [] => none

/-- The input list of the descriptor is empty or its first entry is null, as a test. It is the
condition under which the factory itself reports "Invalid null input"
(`NeonWorkloadFactory.cpp`, line 168). -/
def QueueDescriptor.missingInput (descriptor : QueueDescriptor) : Bool :=
  descriptor.m_Inputs.isEmpty || (descriptor.m_Inputs.getD 0 none).isNone

/-- Modelled from the spec: the preconditions a workload constructor checks on its descriptor
(the constructors and the `Validate` members of the descriptors are not among the sources).
"Invalid-argument: descriptor violates a precondition (missing input, null constant) →
immediate explicit failure at creation"; "required constant-parameter references must be
non-null before workload creation". -/
class CreationPreconditions (QueueDescriptorType : Type) where
  violated : QueueDescriptorType → Bool

/-- Modelled from the spec: a descriptor without constants violates a precondition when its input
is missing. -/
instance : CreationPreconditions QueueDescriptor :=
  ⟨QueueDescriptor.missingInput⟩

/-- Modelled from the spec: a batch normalization descriptor violates a precondition when its
input is missing or one of its four constant references is null. -/
instance : CreationPreconditions BatchNormalizationQueueDescriptor :=
  ⟨fun descriptor => descriptor.toQueueDescriptor.missingInput || descriptor.m_Mean.isNone ||
    descriptor.m_Variance.isNone || descriptor.m_Beta.isNone || descriptor.m_Gamma.isNone⟩

/-- Modelled from the spec: `std::make_unique<WorkloadClass>(descriptor, info, args...)`, the
constructor of a workload class, absent from the sources. A descriptor that violates a
precondition is an "immediate explicit failure at creation; no silent defaulting"; otherwise
the workload is built, bound to the workload info. -/
def constructWorkload {QueueDescriptorType : Type} [CreationPreconditions QueueDescriptorType]
    (WorkloadClass : WorkloadType) (descriptor : QueueDescriptorType) (info : WorkloadInfo) :
    Except Failure IWorkload :=
  if CreationPreconditions.violated descriptor then throw Failure.InvalidArgumentException
  else pure ⟨WorkloadClass, info⟩

/-- Modelled from the spec: `MakeWorkloadForType<WorkloadType>::Func`, absent from the sources.
"If none exists for the (backend, op, dtype) triple, it returns a null/no-op result — never a
thrown failure", so for `NullWorkload` nothing is constructed and the descriptor is not looked
at; for a supported triple the workload class is constructed. -/
def MakeWorkloadForType {QueueDescriptorType : Type} [CreationPreconditions QueueDescriptorType]
    (WorkloadClass : WorkloadType) (descriptor : QueueDescriptorType) (info : WorkloadInfo) :
    CreateResult :=
  if WorkloadClass = WorkloadType.NullWorkload then pure none
  else do
    let workload ← constructWorkload WorkloadClass descriptor info
    pure (some workload)

/-- Modelled from the spec: `MakeWorkload<FloatWorkload, Uint8Workload>(descriptor, info, args...)`,
absent from the sources. "Each entry point selects, from the runtime dtype, one of a small closed
set of type-specialized implementations; if none exists ... it returns a null/no-op result — never
a thrown failure". The first class serves the floating point types, the second serves
`QuantisedAsymm8`; no class serves any other data type. The trailing constructor arguments
(the intra-layer memory manager) do not take part in the choice and are left out. -/
def MakeWorkload {QueueDescriptorType : Type} [CreationPreconditions QueueDescriptorType]
    (FloatWorkload Uint8Workload : WorkloadType)
    (descriptor : QueueDescriptorType) (info : WorkloadInfo) : CreateResult :=
  match info.runtimeDataType with
  | some DataType.Float16 => MakeWorkloadForType FloatWorkload descriptor info
  | some DataType.Float32 => MakeWorkloadForType FloatWorkload descriptor info
  | some DataType.QuantisedAsymm8 => MakeWorkloadForType Uint8Workload descriptor info
  | _ => pure none

/-! ## arm_compute and boost helpers used by the factory -/

/-- Embeds `arm_compute::Coordinates::num_max_dimensions`: the capacity of a coordinate vector. -/
def Coordinates.num_max_dimensions : Nat := 6

/-- Embeds `arm_compute::Coordinates` (a `Dimensions<int>`): a fixed array of `num_max_dimensions`
values and the number of dimensions in use. -/
structure Coordinates where
  id : List Int
  num_dimensions : Nat
  deriving DecidableEq, Repr

/-- A default constructed `Coordinates`: all values zero, no dimension in use. -/
def Coordinates.empty : Coordinates :=
  ⟨List.replicate Coordinates.num_max_dimensions 0, 0⟩

/-- Embeds `Dimensions::set_num_dimensions`. -/
def Coordinates.set_num_dimensions (c : Coordinates) (n : Nat) : Coordinates :=
  { c with num_dimensions := n }

/-- Embeds `Dimensions::set(dimension, value)`: stores the value and widens the number of dimensions in
use to cover it. A dimension beyond the capacity is an error of the library. -/
def Coordinates.set (c : Coordinates) (dimension : Nat) (value : Int) : Except Failure Coordinates :=
  if dimension < Coordinates.num_max_dimensions then
    pure ⟨c.id.set dimension value, max c.num_dimensions (dimension + 1)⟩
  else
    throw Failure.AssertionFailed

/-- Embeds `Dimensions::operator[]`. -/
def Coordinates.get (c : Coordinates) (dimension : Nat) : Int := c.id.getD dimension 0

/-- The coordinates in use, first dimension first. -/
def Coordinates.toList (c : Coordinates) : List Int :=
  (List.range c.num_dimensions).map c.get

/-- Embeds `boost::numeric_cast<int>` of an `unsigned int`: the value when it fits an `int`, and a thrown
`bad_numeric_cast` otherwise. -/
def numeric_cast_int (v : Nat) : Except Failure Int :=
  if v ≤ 2147483647 then pure (Int.ofNat v) else throw Failure.bad_numeric_cast

/-- Reading `subTensorOrigin[index]` through the raw pointer: outside the array the read is
undefined. -/
def readOrigin (subTensorOrigin : List Nat) (index : Nat) : Except Failure Nat :=
  match subTensorOrigin.get? index with
  | some v => pure v
  | none => throw Failure.UndefinedBehaviour

/-- Embeds `arm_compute::TensorShape`: the dimensions in the order of the compute library. -/
abbrev ArmComputeTensorShape := List Nat

/-- Modelled from the spec: `armcomputetensorutils::BuildArmComputeTensorShape`, absent from the
sources. "Sub-tensor creation must translate logical dimension-index order into the backend's
native coordinate convention whenever that convention reverses dimension order". -/
def BuildArmComputeTensorShape (tensorShape : TensorShape) : ArmComputeTensorShape :=
  tensorShape.m_Dimensions.reverse

/-- Embeds `boost::polymorphic_downcast<INeonTensorHandle*>(&parent)`: the same object seen as a Neon
handle. On a handle of another backend the cast asserts in a build with assertions and is
undefined in a build without. -/
def polymorphic_downcast (asserts : Bool) (parent : ITensorHandle) : Except Failure ITensorHandle :=
  if parent.GetType = ITensorHandle.Kind.Neon then pure parent
  else throw (if asserts then Failure.AssertionFailed else Failure.UndefinedBehaviour)

/-- Modelled from the spec: what the constructor of a sub-tensor handle requires of the region it
is given, in the native order of the compute library. "A sub-tensor handle's shape/rank/offset
stay within parent bounds": the region has the rank of the parent, one coordinate for each of
its dimensions, and in every dimension it starts at or after zero and ends within the extent of
the parent. -/
def NeonSubTensorHandle.WithinParent (parent : ITensorHandle) (shape : ArmComputeTensorShape)
    (coords : Coordinates) : Prop :=
  shape.length = (BuildArmComputeTensorShape parent.m_Shape).length ∧
  coords.num_dimensions = shape.length ∧
  ∀ i, i < shape.length →
    0 ≤ coords.get i ∧
    coords.get i + Int.ofNat (shape.getD i 0) ≤
      Int.ofNat ((BuildArmComputeTensorShape parent.m_Shape).getD i 0)

/-- The requirement of the sub-tensor constructor can be tested. -/
instance NeonSubTensorHandle.decidableWithinParent (parent : ITensorHandle)
    (shape : ArmComputeTensorShape) (coords : Coordinates) :
    Decidable (NeonSubTensorHandle.WithinParent parent shape coords) := by
  unfold NeonSubTensorHandle.WithinParent
  exact inferInstance

/-- Modelled from the spec: `armnn::NeonSubTensorHandle` (the class is declared in
`NeonTensorHandle.hpp`, outside these sources): the parent it aliases, its native shape and its
native start coordinates. "Invariant: a sub-tensor handle's shape/rank/offset stay within parent
bounds for its entire lifetime". -/
structure NeonSubTensorHandle where
  m_Parent : ITensorHandle
  m_Shape : ArmComputeTensorShape
  m_Coords : Coordinates
  within : NeonSubTensorHandle.WithinParent m_Parent m_Shape m_Coords
  deriving DecidableEq

/-- Modelled from the spec: the constructor `NeonSubTensorHandle(parent, shape, coords)`, absent
from the sources. "Out-of-range or rank-mismatched origins are a fatal programming error, not
recoverable": a region that does not lie within the parent ends the call in a fatal error, and
no handle is built. -/
def NeonSubTensorHandle.make (parent : ITensorHandle) (shape : ArmComputeTensorShape)
    (coords : Coordinates) : Except Failure NeonSubTensorHandle :=
  if h : NeonSubTensorHandle.WithinParent parent shape coords then pure ⟨parent, shape, coords, h⟩
  else throw Failure.FatalError

/-- The memory group a Neon tensor handle is registered with. -/
inductive MemoryGroup where
  | InterLayer
  | IntraLayer
  deriving DecidableEq, Repr

/-- Embeds `armnn::NeonTensorHandle`: the tensor info it was built from and its memory group. -/
structure NeonTensorHandle where
  m_TensorInfo : TensorInfo
  m_MemoryGroup : Option MemoryGroup
  deriving DecidableEq

/-- The inputs of `CreateSubTensorHandle` that do not describe a region of the parent: the
sub-tensor has another rank than the parent, or in some dimension `d` the region
`[origin[d], origin[d] + subShape[d])` runs past the extent of the parent. -/
def SubTensorOutOfBounds (parent : ITensorHandle) (subTensorShape : TensorShape)
    (subTensorOrigin : List Nat) : Prop :=
  subTensorShape.GetNumDimensions ≠ parent.m_Shape.GetNumDimensions ∨
  ∃ d, d < subTensorShape.GetNumDimensions ∧
    parent.m_Shape.m_Dimensions.getD d 0 <
      subTensorOrigin.getD d 0 + subTensorShape.m_Dimensions.getD d 0

/-! ## NeonWorkloadFactory, compiled with `ARMCOMPUTENEON_ENABLED` -/

namespace NeonWorkloadFactory.ArmComputeNeon

/-- One iteration of the loop of `CreateSubTensorHandle`:
`coords.set(i, numeric_cast<int>(subTensorOrigin[n - i - 1]))`. -/
def CreateSubTensorHandle.body (subTensorShape : TensorShape) (subTensorOrigin : List Nat)
    (coords : Coordinates) (i : Nat) : Except Failure Coordinates := do
  -- Arm compute indexes tensor coords in reverse order.
  let revertedIndex := subTensorShape.GetNumDimensions - i - 1
  let origin ← readOrigin subTensorOrigin revertedIndex
  let value ← numeric_cast_int origin
  coords.set i value

/-- The coordinates `CreateSubTensorHandle` builds: `set_num_dimensions` followed by the loop
over `i = 0 .. GetNumDimensions() - 1`. -/
def CreateSubTensorHandle.coords (subTensorShape : TensorShape) (subTensorOrigin : List Nat) :
    Except Failure Coordinates :=
  (List.range subTensorShape.GetNumDimensions).foldlM
    (CreateSubTensorHandle.body subTensorShape subTensorOrigin)
    (Coordinates.empty.set_num_dimensions subTensorShape.GetNumDimensions)

/-- Embeds `NeonWorkloadFactory::CreateSubTensorHandle`. -/
def CreateSubTensorHandle (asserts : Bool) (parent : ITensorHandle) (subTensorShape : TensorShape)
    (subTensorOrigin : List Nat) : Except Failure (Option NeonSubTensorHandle) := do
  BOOST_ASSERT asserts (parent.GetType = ITensorHandle.Kind.Neon)
  let shape := BuildArmComputeTensorShape subTensorShape
  let coords ← CreateSubTensorHandle.coords subTensorShape subTensorOrigin
  let neonParent ← polymorphic_downcast asserts parent
  let handle ← NeonSubTensorHandle.make neonParent shape coords
  pure (some handle)

/-- Embeds `NeonWorkloadFactory::CreateTensorHandle`. -/
def CreateTensorHandle (tensorInfo : TensorInfo) : Except Failure (Option NeonTensorHandle) :=
  pure (some ⟨tensorInfo, some MemoryGroup.InterLayer⟩)

/-- Embeds `NeonWorkloadFactory::CreateInput`. -/
def CreateInput (descriptor : InputQueueDescriptor) (info : WorkloadInfo) : CreateResult :=
  MakeWorkload .CopyMemGenericWorkload .CopyMemGenericWorkload descriptor info

/-- Embeds `NeonWorkloadFactory::CreateOutput`. -/
def CreateOutput (descriptor : OutputQueueDescriptor) (info : WorkloadInfo) : CreateResult :=
  MakeWorkload .CopyMemGenericWorkload .CopyMemGenericWorkload descriptor info

/-- Embeds `NeonWorkloadFactory::CreateActivation`. -/
def CreateActivation (descriptor : ActivationQueueDescriptor) (info : WorkloadInfo) : CreateResult :=
  MakeWorkload .NeonActivationFloat32Workload .NeonActivationUint8Workload descriptor info

/-- Embeds `NeonWorkloadFactory::CreateSoftmax`. -/
def CreateSoftmax (descriptor : SoftmaxQueueDescriptor) (info : WorkloadInfo) : CreateResult :=
  MakeWorkload .NeonSoftmaxFloat32Workload .NeonSoftmaxUint8Workload descriptor info

/-- Embeds `NeonWorkloadFactory::CreateSplitter`. -/
def CreateSplitter (descriptor : SplitterQueueDescriptor) (info : WorkloadInfo) : CreateResult :=
  MakeWorkload .NeonSplitterFloat32Workload .NeonSplitterUint8Workload descriptor info

/-- Embeds `NeonWorkloadFactory::CreateMerger`. -/
def CreateMerger (descriptor : MergerQueueDescriptor) (info : WorkloadInfo) : CreateResult :=
  MakeWorkload .NeonMergerFloat32Workload .NeonMergerUint8Workload descriptor info

/-- Embeds `NeonWorkloadFactory::CreateFullyConnected`. -/
def CreateFullyConnected (descriptor : FullyConnectedQueueDescriptor) (info : WorkloadInfo) :
    CreateResult :=
  MakeWorkload .NeonFullyConnectedFloat32Workload .NullWorkload descriptor info

/-- Embeds `NeonWorkloadFactory::CreatePermute`. -/
def CreatePermute (descriptor : PermuteQueueDescriptor) (info : WorkloadInfo) : CreateResult :=
  MakeWorkload .NeonPermuteFloatWorkload .NeonPermuteUint8Workload descriptor info

/-- Embeds `NeonWorkloadFactory::CreatePooling2d`. -/
def CreatePooling2d (descriptor : Pooling2dQueueDescriptor) (info : WorkloadInfo) : CreateResult :=
  MakeWorkload .NeonPooling2dFloat32Workload .NeonPooling2dUint8Workload descriptor info

/-- Embeds `NeonWorkloadFactory::CreateConvolution2d`. -/
def CreateConvolution2d (descriptor : Convolution2dQueueDescriptor) (info : WorkloadInfo) :
    CreateResult :=
  MakeWorkload .NeonConvolution2dFloat32Workload .NeonConvolution2dUint8Workload
    descriptor info

/-- Embeds `NeonWorkloadFactory::CreateDepthwiseConvolution2d`. -/
def CreateDepthwiseConvolution2d (descriptor : DepthwiseConvolution2dQueueDescriptor)
    (info : WorkloadInfo) : CreateResult :=
  MakeWorkload .NeonDepthwiseConvolutionFloat32Workload
    .NeonDepthwiseConvolutionUint8Workload descriptor info

/-- Embeds `NeonWorkloadFactory::CreateNormalization`. -/
def CreateNormalization (descriptor : NormalizationQueueDescriptor) (info : WorkloadInfo) :
    CreateResult :=
  MakeWorkload .NeonNormalizationFloat32Workload .NullWorkload descriptor info

/-- Embeds `NeonWorkloadFactory::CreateAddition`. -/
def CreateAddition (descriptor : AdditionQueueDescriptor) (info : WorkloadInfo) : CreateResult :=
  MakeWorkload .NeonAdditionFloat32Workload .NullWorkload descriptor info

/-- Embeds `NeonWorkloadFactory::CreateMultiplication`. -/
def CreateMultiplication (descriptor : MultiplicationQueueDescriptor) (info : WorkloadInfo) :
    CreateResult :=
  MakeWorkload .NeonMultiplicationFloat32Workload .NullWorkload descriptor info

/-- Embeds `NeonWorkloadFactory::CreateBatchNormalization`. -/
def CreateBatchNormalization (descriptor : BatchNormalizationQueueDescriptor)
    (info : WorkloadInfo) : CreateResult :=
  MakeWorkload .NeonBatchNormalizationFloat32Workload .NullWorkload descriptor info

/-- Embeds `NeonWorkloadFactory::CreateMemCopy`. -/
def CreateMemCopy (descriptor : MemCopyQueueDescriptor) (info : WorkloadInfo) : CreateResult :=
  if descriptor.m_Inputs.isEmpty || (descriptor.m_Inputs.getD 0 none).isNone then
    throw Failure.InvalidArgumentException
  else
    MakeWorkload .CopyMemGenericWorkload .CopyMemGenericWorkload descriptor info

/-- Embeds `NeonWorkloadFactory::CreateResizeBilinear`. -/
def CreateResizeBilinear (_descriptor : ResizeBilinearQueueDescriptor) (_info : WorkloadInfo) :
    CreateResult :=
  pure none

/-- Embeds `NeonWorkloadFactory::CreateFakeQuantization`. -/
def CreateFakeQuantization (_descriptor : FakeQuantizationQueueDescriptor) (_info : WorkloadInfo) :
    CreateResult :=
  pure none

/-- Embeds `NeonWorkloadFactory::CreateL2Normalization`. -/
def CreateL2Normalization (descriptor : L2NormalizationQueueDescriptor) (info : WorkloadInfo) :
    CreateResult :=
  MakeWorkload .NeonL2NormalizationFloat32Workload .NullWorkload descriptor info

/-- Embeds `NeonWorkloadFactory::CreateConstant`. -/
def CreateConstant (descriptor : ConstantQueueDescriptor) (info : WorkloadInfo) : CreateResult :=
  MakeWorkload .NeonConstantFloat32Workload .NeonConstantUint8Workload descriptor info

/-- Embeds `NeonWorkloadFactory::CreateReshape`. -/
def CreateReshape (descriptor : ReshapeQueueDescriptor) (info : WorkloadInfo) : CreateResult :=
  MakeWorkload .NeonReshapeFloat32Workload .NeonReshapeUint8Workload descriptor info

/-- Embeds `NeonWorkloadFactory::CreateFloor`. -/
def CreateFloor (descriptor : FloorQueueDescriptor) (info : WorkloadInfo) : CreateResult :=
  MakeWorkload .NeonFloorFloat32Workload .NullWorkload descriptor info

/-- Embeds `NeonWorkloadFactory::CreateLstm`. -/
def CreateLstm (descriptor : LstmQueueDescriptor) (info : WorkloadInfo) : CreateResult :=
  MakeWorkload .NeonLstmFloat32Workload .NullWorkload descriptor info

/-- Embeds `NeonWorkloadFactory::CreateConvertFp16ToFp32`: `std::make_unique` of the workload class. -/
def CreateConvertFp16ToFp32 (descriptor : ConvertFp16ToFp32QueueDescriptor)
    (info : WorkloadInfo) : CreateResult := do
  let workload ← constructWorkload .NeonConvertFp16ToFp32Workload descriptor info
  pure (some workload)

/-- Embeds `NeonWorkloadFactory::CreateConvertFp32ToFp16`: `std::make_unique` of the workload class. -/
def CreateConvertFp32ToFp16 (descriptor : ConvertFp32ToFp16QueueDescriptor)
    (info : WorkloadInfo) : CreateResult := do
  let workload ← constructWorkload .NeonConvertFp32ToFp16Workload descriptor info
  pure (some workload)

end NeonWorkloadFactory.ArmComputeNeon

/-! ## NeonWorkloadFactory, compiled without the ArmCompute libraries -/

namespace NeonWorkloadFactory.NoArmCompute

/-- Embeds `NeonWorkloadFactory::CreateSubTensorHandle`. -/
def CreateSubTensorHandle (_parent : ITensorHandle) (_subTensorShape : TensorShape)
    (_subTensorOrigin : List Nat) : Except Failure (Option NeonSubTensorHandle) :=
  pure none

/-- Embeds `NeonWorkloadFactory::CreateTensorHandle`. -/
def CreateTensorHandle (_tensorInfo : TensorInfo) : Except Failure (Option NeonTensorHandle) :=
  pure none

/-- Embeds `NeonWorkloadFactory::CreateInput`. -/
def CreateInput (_descriptor : InputQueueDescriptor) (_info : WorkloadInfo) : CreateResult :=
  pure none

/-- Embeds `NeonWorkloadFactory::CreateOutput`. -/
def CreateOutput (_descriptor : OutputQueueDescriptor) (_info : WorkloadInfo) : CreateResult :=
  pure none

/-- Embeds `NeonWorkloadFactory::CreateActivation`. -/
def CreateActivation (_descriptor : ActivationQueueDescriptor) (_info : WorkloadInfo) :
    CreateResult :=
  pure none

/-- Embeds `NeonWorkloadFactory::CreateSoftmax`. -/
def CreateSoftmax (_descriptor : SoftmaxQueueDescriptor) (_info : WorkloadInfo) : CreateResult :=
  pure none

/-- Embeds `NeonWorkloadFactory::CreateSplitter`. -/
def CreateSplitter (_descriptor : SplitterQueueDescriptor) (_info : WorkloadInfo) : CreateResult :=
  pure none

/-- Embeds `NeonWorkloadFactory::CreateMerger`. -/
def CreateMerger (_descriptor : MergerQueueDescriptor) (_info : WorkloadInfo) : CreateResult :=
  pure none

/-- Embeds `NeonWorkloadFactory::CreateFullyConnected`. -/
def CreateFullyConnected (_descriptor : FullyConnectedQueueDescriptor) (_info : WorkloadInfo) :
    CreateResult :=
  pure none

/-- Embeds `NeonWorkloadFactory::CreatePermute`. -/
def CreatePermute (_descriptor : PermuteQueueDescriptor) (_info : WorkloadInfo) : CreateResult :=
  pure none

/-- Embeds `NeonWorkloadFactory::CreatePooling2d`. -/
def CreatePooling2d (_descriptor : Pooling2dQueueDescriptor) (_info : WorkloadInfo) :
    CreateResult :=
  pure none

/-- Embeds `NeonWorkloadFactory::CreateConvolution2d`. -/
def CreateConvolution2d (_descriptor : Convolution2dQueueDescriptor) (_info : WorkloadInfo) :
    CreateResult :=
  pure none

/-- Embeds `NeonWorkloadFactory::CreateDepthwiseConvolution2d`. -/
def CreateDepthwiseConvolution2d (_descriptor : DepthwiseConvolution2dQueueDescriptor)
    (_info : WorkloadInfo) : CreateResult :=
  pure none

/-- Embeds `NeonWorkloadFactory::CreateNormalization`. -/
def CreateNormalization (_descriptor : NormalizationQueueDescriptor) (_info : WorkloadInfo) :
    CreateResult :=
  pure none

/-- Embeds `NeonWorkloadFactory::CreateAddition`. -/
def CreateAddition (_descriptor : AdditionQueueDescriptor) (_info : WorkloadInfo) : CreateResult :=
  pure none

/-- Embeds `NeonWorkloadFactory::CreateBatchNormalization`. -/
def CreateBatchNormalization (_data : BatchNormalizationQueueDescriptor) (_info : WorkloadInfo) :
    CreateResult :=
  pure none

/-- Embeds `NeonWorkloadFactory::CreateMultiplication`. -/
def CreateMultiplication (_data : MultiplicationQueueDescriptor) (_info : WorkloadInfo) :
    CreateResult :=
  pure none

/-- Embeds `NeonWorkloadFactory::CreateMemCopy`. -/
def CreateMemCopy (_descriptor : MemCopyQueueDescriptor) (_info : WorkloadInfo) : CreateResult :=
  pure none

/-- Embeds `NeonWorkloadFactory::CreateResizeBilinear`. -/
def CreateResizeBilinear (_descriptor : ResizeBilinearQueueDescriptor) (_info : WorkloadInfo) :
    CreateResult :=
  pure none

/-- Embeds `NeonWorkloadFactory::CreateFakeQuantization`. -/
def CreateFakeQuantization (_descriptor : FakeQuantizationQueueDescriptor) (_info : WorkloadInfo) :
    CreateResult :=
  pure none

/-- Embeds `NeonWorkloadFactory::CreateL2Normalization`. -/
def CreateL2Normalization (_descriptor : L2NormalizationQueueDescriptor) (_info : WorkloadInfo) :
    CreateResult :=
  pure none

/-- Embeds `NeonWorkloadFactory::CreateConstant`. -/
def CreateConstant (_descriptor : ConstantQueueDescriptor) (_info : WorkloadInfo) : CreateResult :=
  pure none

/-- Embeds `NeonWorkloadFactory::CreateReshape`. -/
def CreateReshape (_descriptor : ReshapeQueueDescriptor) (_info : WorkloadInfo) : CreateResult :=
  pure none

/-- Embeds `NeonWorkloadFactory::CreateFloor`. -/
def CreateFloor (_descriptor : FloorQueueDescriptor) (_info : WorkloadInfo) : CreateResult :=
  pure none

/-- Embeds `NeonWorkloadFactory::CreateLstm`. -/
def CreateLstm (_descriptor : LstmQueueDescriptor) (_info : WorkloadInfo) : CreateResult :=
  pure none

/-- Embeds `NeonWorkloadFactory::CreateConvertFp16ToFp32`. -/
def CreateConvertFp16ToFp32 (_descriptor : ConvertFp16ToFp32QueueDescriptor)
    (_info : WorkloadInfo) : CreateResult :=
  pure none

/-- Embeds `NeonWorkloadFactory::CreateConvertFp32ToFp16`. -/
def CreateConvertFp32ToFp16 (_descriptor : ConvertFp32ToFp16QueueDescriptor)
    (_info : WorkloadInfo) : CreateResult :=
  pure none

/-- Embeds `NeonWorkloadFactory::Finalize`, an empty body: the state of the program, whatever it holds,
is handed back as it came. -/
def Finalize {State : Type} (state : State) : State := state

/-- Embeds `NeonWorkloadFactory::Release`, an empty body. -/
def Release {State : Type} (state : State) : State := state

/-- Embeds `NeonWorkloadFactory::Acquire`, an empty body. -/
def Acquire {State : Type} (state : State) : State := state

/-- The three lifecycle entry points of the factory. -/
inductive LifecycleCall where
  | Finalize
  | Acquire
  | Release
  deriving DecidableEq, Repr

/-- One lifecycle call on a program state. -/
def LifecycleCall.run {State : Type} (call : LifecycleCall) (state : State) : State :=
  match call with
  | .Finalize => NeonWorkloadFactory.NoArmCompute.Finalize state
  | .Acquire => NeonWorkloadFactory.NoArmCompute.Acquire state
  | .Release => NeonWorkloadFactory.NoArmCompute.Release state

/-- A sequence of lifecycle calls, in order, on a program state. -/
def runLifecycle {State : Type} (calls : List LifecycleCall) (state : State) : State :=
  calls.foldl (fun s call => call.run s) state

end NeonWorkloadFactory.NoArmCompute

/-! ## Constant tensor handles and the heap they live on -/

/-- Embeds `armnn::ScopedCpuTensorHandle`: a tensor info and the memory the handle owns (`none` while no
memory is allocated), as a list of bytes. -/
structure ScopedCpuTensorHandle where
  m_TensorInfo : TensorInfo
  m_Memory : Option (List Nat)
  deriving DecidableEq

/-- Modelled from the spec: the copy constructor of `ScopedCpuTensorHandle` (`CpuTensorHandle.cpp`
is not among the sources). `Clone` makes "independently owned copies of any constant tensors":
the copy is a new object with the tensor info and the contents of the original. -/
def ScopedCpuTensorHandle.copy (other : ScopedCpuTensorHandle) : ScopedCpuTensorHandle :=
  ⟨other.m_TensorInfo, other.m_Memory⟩

/-- The heap of constant tensor handle objects: the object at each address, `none` once it has been
destroyed. Addresses are never reused. -/
structure Heap where
  objects : List (Option ScopedCpuTensorHandle)
  deriving DecidableEq

/-- The object a pointer refers to, if it is alive. -/
def Heap.read (heap : Heap) (address : HandleAddr) : Option ScopedCpuTensorHandle :=
  heap.objects.getD address none

/-- Embeds `std::make_unique<ScopedCpuTensorHandle>(...)`: a new object at a fresh address. -/
def Heap.alloc (heap : Heap) (object : ScopedCpuTensorHandle) : HandleAddr × Heap :=
  (heap.objects.length, ⟨heap.objects ++ [some object]⟩)

/-- Overwriting the object at an address (writing through the pointer). -/
def Heap.write (heap : Heap) (address : HandleAddr) (object : ScopedCpuTensorHandle) : Heap :=
  ⟨heap.objects.set address (some object)⟩

/-- Destroying the object at an address (what `std::unique_ptr::reset` does to its pointee). -/
def Heap.free (heap : Heap) (address : HandleAddr) : Heap :=
  ⟨heap.objects.set address none⟩

/-! ## Layers and graphs -/

/-- Embeds `armnn::OutputSlot` with its output handler: the tensor info attached to the slot and the
tensor handle created for it, if any. -/
structure OutputSlot where
  m_TensorInfo : TensorInfo
  m_TensorHandle : Option ITensorHandle
  deriving DecidableEq

/-- Embeds `OutputSlot::GetTensorInfo`. -/
def OutputSlot.GetTensorInfo (slot : OutputSlot) : TensorInfo := slot.m_TensorInfo

/-- Embeds `armnn::InputSlot`: the output slot it is connected to, `none` while unconnected. -/
structure InputSlot where
  m_Connection : Option OutputSlot
  deriving DecidableEq

/-- Embeds `InputSlot::GetConnection`. -/
def InputSlot.GetConnection (slot : InputSlot) : Option OutputSlot := slot.m_Connection

/-- Embeds `armnn::BatchNormalizationLayer`. The constructor passes `1, 1` to `LayerWithParameters`, so the
layer has exactly one input slot and one output slot. The four constants are
`std::unique_ptr<ScopedCpuTensorHandle>` members. -/
structure BatchNormalizationLayer where
  m_Param : BatchNormalizationDescriptor
  m_LayerName : String
  m_InputSlot : InputSlot
  m_OutputSlot : OutputSlot
  m_Mean : Option HandleAddr
  m_Variance : Option HandleAddr
  m_Beta : Option HandleAddr
  m_Gamma : Option HandleAddr
  deriving DecidableEq

/-- Embeds `armnn::Graph`: the layers it owns (this development has one kind of layer). -/
structure Graph where
  m_Layers : List BatchNormalizationLayer
  deriving DecidableEq

/-- Embeds `armnn::IWorkloadFactory`, the interface a layer compiles against: the one virtual entry point
`BatchNormalizationLayer` calls. -/
structure IWorkloadFactory where
  CreateBatchNormalization : BatchNormalizationQueueDescriptor → WorkloadInfo → CreateResult

/-- The four constants of a batch normalization layer. -/
inductive ConstantSlot where
  | Mean
  | Variance
  | Beta
  | Gamma
  deriving DecidableEq, Repr

namespace BatchNormalizationLayer

/-- The tensor info of a slot before the graph builder sets one: a default constructed
`TensorInfo`. -/
def unsetTensorInfo : TensorInfo := ⟨⟨[], by decide⟩, DataType.Float32, 0, 0⟩

/-- Embeds `BatchNormalizationLayer::BatchNormalizationLayer(param, name)`: one unconnected input slot,
one output slot, and null constants. -/
def ctor (param : BatchNormalizationDescriptor) (name : String) : BatchNormalizationLayer :=
  { m_Param := param, m_LayerName := name,
    m_InputSlot := ⟨none⟩, m_OutputSlot := ⟨unsetTensorInfo, none⟩,
    m_Mean := none, m_Variance := none, m_Beta := none, m_Gamma := none }

/-- Embeds `Layer::GetName`. -/
def GetName (layer : BatchNormalizationLayer) : String := layer.m_LayerName

/-- Embeds `Layer::GetInputSlot(0)`. -/
def GetInputSlot (layer : BatchNormalizationLayer) : InputSlot := layer.m_InputSlot

/-- Embeds `Layer::GetOutputSlot(0)`. -/
def GetOutputSlot (layer : BatchNormalizationLayer) : OutputSlot := layer.m_OutputSlot

/-- Reading one of the four `std::unique_ptr` members. -/
def constant (layer : BatchNormalizationLayer) : ConstantSlot → Option HandleAddr
  | .Mean => layer.m_Mean
  | .Variance => layer.m_Variance
  | .Beta => layer.m_Beta
  | .Gamma => layer.m_Gamma

/-- Assigning one of the four `std::unique_ptr` members. -/
def setConstant (layer : BatchNormalizationLayer) (slot : ConstantSlot)
    (value : Option HandleAddr) : BatchNormalizationLayer :=
  match slot with
  | .Mean => { layer with m_Mean := value }
  | .Variance => { layer with m_Variance := value }
  | .Beta => { layer with m_Beta := value }
  | .Gamma => { layer with m_Gamma := value }

/-- Embeds `BatchNormalizationLayer::GetConstantTensorsByRef`: references to the four members, in the
order `{m_Mean, m_Variance, m_Beta, m_Gamma}`. A reference is the slot it designates; it is read
with `constant` and assigned with `setConstant`. -/
def GetConstantTensorsByRef (_layer : BatchNormalizationLayer) : List ConstantSlot :=
  [.Mean, .Variance, .Beta, .Gamma]

/-- The constant tensor a member holds, read through the heap: `none` when the member is null. -/
def constantData (layer : BatchNormalizationLayer) (heap : Heap) (slot : ConstantSlot) :
    Option ScopedCpuTensorHandle :=
  match layer.constant slot with
  | none => none
  | some address => heap.read address

/-- Overwriting the data of a constant through its reference: the handle object the member points
to is replaced by one holding the new memory. A null member has no data to overwrite. -/
def overwriteConstant (layer : BatchNormalizationLayer) (heap : Heap) (slot : ConstantSlot)
    (memory : Option (List Nat)) : Heap :=
  match layer.constant slot with
  | none => heap
  | some address =>
    match heap.read address with
    | none => heap
    | some object => heap.write address { object with m_Memory := memory }

/-- Releasing a constant through its reference (`reset()` of the `std::unique_ptr`): the object is
destroyed and the member becomes null. -/
def releaseConstant (layer : BatchNormalizationLayer) (heap : Heap) (slot : ConstantSlot) :
    BatchNormalizationLayer × Heap :=
  match layer.constant slot with
  | none => (layer, heap)
  | some address => (layer.setConstant slot none, heap.free address)

/-- Modelled from the spec: `LayerWithParameters::PrepInfoAndDesc`, absent from the sources.
"Each Layer converts parameters and constant operands into a backend-agnostic
QueueDescriptor/WorkloadInfo": the parameters of the layer are stored in the descriptor, the
handles and tensor infos of the connected input and of the output slot are collected, and the
constant references of the descriptor are left as the caller set them. -/
def PrepInfoAndDesc (layer : BatchNormalizationLayer)
    (descriptor : BatchNormalizationQueueDescriptor) (_graph : Graph) :
    BatchNormalizationQueueDescriptor × WorkloadInfo :=
  let inputs := layer.m_InputSlot.m_Connection.toList
  ({ descriptor with
      m_Parameters := layer.m_Param
      m_Inputs := descriptor.m_Inputs ++ inputs.map (fun slot => slot.m_TensorHandle)
      m_Outputs := descriptor.m_Outputs ++ [layer.m_OutputSlot.m_TensorHandle] },
   { m_InputTensorInfos := inputs.map (fun slot => slot.GetTensorInfo)
     m_OutputTensorInfos := [layer.m_OutputSlot.GetTensorInfo] })

/-- What `CreateWorkload` did: the calls it made to the factory, in order, and what it returned
or how it failed. -/
structure CreateWorkloadOutcome where
  factoryCalls : List (BatchNormalizationQueueDescriptor × WorkloadInfo)
  result : CreateResult

/-- Embeds `BatchNormalizationLayer::CreateWorkload`. -/
def CreateWorkload (asserts : Bool) (layer : BatchNormalizationLayer) (graph : Graph)
    (factory : IWorkloadFactory) : CreateWorkloadOutcome :=
  -- on this level constant data should not be released..
  let checks : Except Failure Unit := do
    BOOST_ASSERT asserts layer.m_Mean.isSome
    BOOST_ASSERT asserts layer.m_Variance.isSome
    BOOST_ASSERT asserts layer.m_Beta.isSome
    BOOST_ASSERT asserts layer.m_Gamma.isSome
  match checks with
  | .error failure => ⟨[], .error failure⟩
  | .ok () =>
    let descriptor : BatchNormalizationQueueDescriptor := BatchNormalizationQueueDescriptor.empty
    let descriptor := { descriptor with m_Mean := layer.m_Mean }
    let descriptor := { descriptor with m_Variance := layer.m_Variance }
    let descriptor := { descriptor with m_Beta := layer.m_Beta }
    let descriptor := { descriptor with m_Gamma := layer.m_Gamma }
    let prepared := layer.PrepInfoAndDesc descriptor graph
    ⟨[prepared], factory.CreateBatchNormalization prepared.1 prepared.2⟩

/-- Modelled from the spec: `CloneBase<BatchNormalizationLayer>(graph, m_Param, GetName())`, absent
from the sources. `Clone` "produces a deep, independent Layer copy": a new layer is constructed
from the parameters and the name. -/
def CloneBase (_graph : Graph) (param : BatchNormalizationDescriptor) (name : String) :
    BatchNormalizationLayer :=
  ctor param name

/-- One line of `Clone`:
`m_X ? std::make_unique<ScopedCpuTensorHandle>(*m_X) : nullptr`. Dereferencing a member whose
object is gone is undefined. -/
def Clone.copyConstant (heap : Heap) (source : Option HandleAddr) :
    Except Failure (Option HandleAddr × Heap) :=
  match source with
  | none => pure (none, heap)
  | some address =>
    match heap.read address with
    | none => throw Failure.UndefinedBehaviour
    | some object =>
      let allocated := heap.alloc (ScopedCpuTensorHandle.copy object)
      pure (some allocated.1, allocated.2)

/-- Embeds `BatchNormalizationLayer::Clone`: the new layer, the target graph that now owns it, and the
heap with the copied constants. -/
def Clone (layer : BatchNormalizationLayer) (graph : Graph) (heap : Heap) :
    Except Failure (BatchNormalizationLayer × Graph × Heap) := do
  let clone := CloneBase graph layer.m_Param layer.GetName
  let (mean, heap) ← Clone.copyConstant heap layer.m_Mean
  let clone := { clone with m_Mean := mean }
  let (variance, heap) ← Clone.copyConstant heap layer.m_Variance
  let clone := { clone with m_Variance := variance }
  let (beta, heap) ← Clone.copyConstant heap layer.m_Beta
  let clone := { clone with m_Beta := beta }
  let (gamma, heap) ← Clone.copyConstant heap layer.m_Gamma
  let clone := { clone with m_Gamma := gamma }
  pure (clone, ⟨graph.m_Layers ++ [clone]⟩, heap)

/-- Modelled from the spec: `Layer::VerifyLayerConnections(expectedConnections, location)`, absent
from the sources. The layer validates "its connected inputs": an input slot without a connection is
a `LayerValidationException`. The layer has one input slot. -/
def VerifyLayerConnections (layer : BatchNormalizationLayer) (expectedConnections : Nat) :
    Except Failure Unit :=
  if 0 < expectedConnections && layer.GetInputSlot.GetConnection.isNone then
    throw Failure.LayerValidationException
  else
    pure ()

/-- Modelled from the spec: `ConditionalThrowIfNotEqual<LayerValidationException>(message, left,
right)`, absent from the sources. The layer "asserts equality against the shape already attached
to its output slot ...; mismatch is a fatal graph-construction error". -/
def ConditionalThrowIfNotEqual (leftHandSide rightHandSide : TensorShape) : Except Failure Unit :=
  if leftHandSide = rightHandSide then pure () else throw Failure.LayerValidationException

/-- Embeds `BatchNormalizationLayer::ValidateTensorShapesFromInputs`. The shape inference rule of the
layer, the virtual `InferOutputShapes` it inherits from `Layer`, is an argument. -/
def ValidateTensorShapesFromInputs (asserts : Bool)
    (InferOutputShapes : List TensorShape → List TensorShape)
    (layer : BatchNormalizationLayer) : Except Failure Unit := do
  layer.VerifyLayerConnections 1
  match layer.GetInputSlot.GetConnection with
  | none => throw Failure.UndefinedBehaviour
  | some connection =>
    let inferredShapes := InferOutputShapes [connection.GetTensorInfo.GetShape]
    BOOST_ASSERT asserts (inferredShapes.length == 1)
    match inferredShapes with
    | [] => throw Failure.UndefinedBehaviour
    | inferred :: _ =>
      ConditionalThrowIfNotEqual layer.GetOutputSlot.GetTensorInfo.GetShape inferred

end BatchNormalizationLayer

/-- A workload info with one `[1, 4]` input and one `[1, 4]` output of the given data type. -/
def exampleInfo (dataType : DataType) : WorkloadInfo :=
  { m_InputTensorInfos := [⟨⟨[1, 4], by decide⟩, dataType, 0, 0⟩]
    m_OutputTensorInfos := [⟨⟨[1, 4], by decide⟩, dataType, 0, 0⟩] }

/-- Every non-null constant of the layer points at a live object of the heap: the invariant of
the four `std::unique_ptr` members. -/
def BatchNormalizationLayer.ConstantsAlive (layer : BatchNormalizationLayer) (heap : Heap) : Prop :=
  ∀ slot address, layer.constant slot = some address → ∃ object, heap.read address = some object

/-- The Neon factory, compiled with the ArmCompute libraries, behind the `IWorkloadFactory`
interface. -/
def NeonWorkloadFactory.ArmComputeNeon.factory : IWorkloadFactory :=
  ⟨NeonWorkloadFactory.ArmComputeNeon.CreateBatchNormalization⟩

/-- A batch normalization layer named `bn` whose mean is null and whose variance, beta and gamma
point at the heap addresses 0, 1 and 2. -/
def exampleLayerNullMean : BatchNormalizationLayer :=
  { BatchNormalizationLayer.ctor ⟨7⟩ "bn" with
    m_Variance := some 0, m_Beta := some 1, m_Gamma := some 2 }

/-- A batch normalization layer named `bn` connected to a producer of `Float32` shape `[1, 4]`,
with the shape `[1, 4]` attached to its own output slot and null constants. -/
def exampleLayerConnected : BatchNormalizationLayer :=
  { BatchNormalizationLayer.ctor ⟨7⟩ "bn" with
    m_InputSlot := ⟨some ⟨⟨⟨[1, 4], by decide⟩, DataType.Float32, 0, 0⟩, none⟩⟩
    m_OutputSlot := ⟨⟨⟨[1, 4], by decide⟩, DataType.Float32, 0, 0⟩, none⟩ }

/-- A `Float32` constant tensor of shape `[2]` holding the given bytes. -/
def exampleConstant (bytes : List Nat) : ScopedCpuTensorHandle :=
  ⟨⟨⟨[2], by decide⟩, DataType.Float32, 0, 0⟩, some bytes⟩

/-- A heap of three live constant tensors. -/
def exampleHeap : Heap :=
  ⟨[some (exampleConstant [0, 0, 128, 63, 0, 0, 0, 64]),
    some (exampleConstant [0, 0, 0, 0, 0, 0, 0, 0]),
    some (exampleConstant [0, 0, 128, 63, 0, 0, 128, 63])]⟩

/-- A batch normalization layer named `bn` whose mean, beta and gamma point at the heap addresses
0, 1 and 2 and whose variance is null. -/
def exampleLayerWithConstants : BatchNormalizationLayer :=
  { BatchNormalizationLayer.ctor ⟨7⟩ "bn" with
    m_Mean := some 0, m_Beta := some 1, m_Gamma := some 2 }

/-- The Neon factory, compiled without the ArmCompute libraries, behind the `IWorkloadFactory`
interface. -/
def NeonWorkloadFactory.NoArmCompute.factory : IWorkloadFactory :=
  ⟨NeonWorkloadFactory.NoArmCompute.CreateBatchNormalization⟩

/-- A batch normalization layer named `bn` whose mean, variance, beta and gamma point at the heap
addresses 0, 1, 2 and 3. -/
def exampleLayerAllConstants : BatchNormalizationLayer :=
  { BatchNormalizationLayer.ctor ⟨7⟩ "bn" with
    m_Mean := some 0, m_Variance := some 1, m_Beta := some 2, m_Gamma := some 3 }

section Factory

open NeonWorkloadFactory.ArmComputeNeon

theorem QueueDescriptor.firstInputPresent_iff (descriptor : QueueDescriptor) :
    descriptor.FirstInputPresent ↔ ¬ descriptor.FirstInputMissing := by
  rcases descriptor with ⟨inputs, outputs⟩
  rcases inputs with _ | ⟨first, rest⟩
  · simp [QueueDescriptor.FirstInputPresent, QueueDescriptor.FirstInputMissing]
  · cases first <;> simp [QueueDescriptor.FirstInputPresent, QueueDescriptor.FirstInputMissing]

theorem CreateMemCopy_of_missing (descriptor : MemCopyQueueDescriptor) (info : WorkloadInfo)
    (h : descriptor.FirstInputMissing) :
    CreateMemCopy descriptor info = Except.error Failure.InvalidArgumentException := by
  rcases descriptor with ⟨inputs, outputs⟩
  rcases h with h | ⟨rest, h⟩
  · simp only at h; subst h; rfl
  · simp only at h; subst h; rfl

theorem QueueDescriptor.missingInput_of_present (descriptor : QueueDescriptor)
    (h : descriptor.FirstInputPresent) : descriptor.missingInput = false := by
  rcases descriptor with ⟨inputs, outputs⟩
  rcases h with ⟨first, rest, h⟩
  simp only at h; subst h; rfl

theorem constructWorkload_of_valid {QueueDescriptorType : Type}
    [CreationPreconditions QueueDescriptorType] (WorkloadClass : WorkloadType)
    (descriptor : QueueDescriptorType) (info : WorkloadInfo)
    (h : CreationPreconditions.violated descriptor = false) :
    constructWorkload WorkloadClass descriptor info = Except.ok ⟨WorkloadClass, info⟩ := by
  simp [constructWorkload, h, pure, Except.pure]

theorem MakeWorkloadForType_of_valid {QueueDescriptorType : Type}
    [CreationPreconditions QueueDescriptorType] (WorkloadClass : WorkloadType)
    (descriptor : QueueDescriptorType) (info : WorkloadInfo)
    (h : CreationPreconditions.violated descriptor = false) :
    MakeWorkloadForType WorkloadClass descriptor info =
      Except.ok (if WorkloadClass = WorkloadType.NullWorkload then none
        else some ⟨WorkloadClass, info⟩) := by
  unfold MakeWorkloadForType
  by_cases hnull : WorkloadClass = WorkloadType.NullWorkload
  · simp [hnull, pure, Except.pure]
  · simp [hnull, constructWorkload_of_valid WorkloadClass descriptor info h, bind, Except.bind,
      pure, Except.pure]

theorem MakeWorkload_of_valid {QueueDescriptorType : Type}
    [CreationPreconditions QueueDescriptorType] (FloatWorkload Uint8Workload : WorkloadType)
    (descriptor : QueueDescriptorType) (info : WorkloadInfo)
    (h : CreationPreconditions.violated descriptor = false) :
    ∃ result, MakeWorkload FloatWorkload Uint8Workload descriptor info = Except.ok result := by
  unfold MakeWorkload
  split
  · exact ⟨_, MakeWorkloadForType_of_valid FloatWorkload descriptor info h⟩
  · exact ⟨_, MakeWorkloadForType_of_valid FloatWorkload descriptor info h⟩
  · exact ⟨_, MakeWorkloadForType_of_valid Uint8Workload descriptor info h⟩
  · exact ⟨none, rfl⟩

theorem CreateMemCopy_eq_of_present (descriptor : MemCopyQueueDescriptor) (info : WorkloadInfo)
    (h : descriptor.FirstInputPresent) :
    CreateMemCopy descriptor info = MakeWorkload WorkloadType.CopyMemGenericWorkload
      WorkloadType.CopyMemGenericWorkload descriptor info := by
  rcases descriptor with ⟨inputs, outputs⟩
  rcases h with ⟨first, rest, h⟩
  simp only at h; subst h; rfl

theorem CreateMemCopy_of_present (descriptor : MemCopyQueueDescriptor) (info : WorkloadInfo)
    (h : descriptor.FirstInputPresent) :
    ∃ result, MakeWorkload WorkloadType.CopyMemGenericWorkload
        WorkloadType.CopyMemGenericWorkload descriptor info = Except.ok result ∧
      CreateMemCopy descriptor info = Except.ok result := by
  obtain ⟨result, hresult⟩ := MakeWorkload_of_valid WorkloadType.CopyMemGenericWorkload
    WorkloadType.CopyMemGenericWorkload descriptor info
    (QueueDescriptor.missingInput_of_present descriptor h)
  exact ⟨result, hresult, by rw [CreateMemCopy_eq_of_present descriptor info h, hresult]⟩

/-- C1: with the NEON backend compiled in, `CreateMemCopy` fails with `InvalidArgumentException`
exactly when the input list of the descriptor is empty or its first input is null; in that case
the call yields no pointer at all, and in every other case the check of the factory raises nothing
and the call returns what building the generic copy workload returns. -/
theorem C1_CreateMemCopy_invalid_argument_iff (descriptor : MemCopyQueueDescriptor)
    (info : WorkloadInfo) :
    (CreateMemCopy descriptor info = Except.error Failure.InvalidArgumentException ↔
        descriptor.FirstInputMissing) ∧
    (descriptor.FirstInputMissing → ∀ workload, CreateMemCopy descriptor info ≠ Except.ok workload) ∧
    (¬ descriptor.FirstInputMissing →
        ∃ result, MakeWorkload WorkloadType.CopyMemGenericWorkload
            WorkloadType.CopyMemGenericWorkload descriptor info = Except.ok result ∧
          CreateMemCopy descriptor info = Except.ok result) := by
  refine ⟨⟨fun h => ?_, CreateMemCopy_of_missing descriptor info⟩, fun h workload => ?_, fun h => ?_⟩
  · by_contra hn
    obtain ⟨result, _, hcall⟩ := CreateMemCopy_of_present descriptor info
      ((QueueDescriptor.firstInputPresent_iff descriptor).mpr hn)
    rw [hcall] at h
    cases h
  · rw [CreateMemCopy_of_missing descriptor info h]
    intro hne
    cases hne
  · exact CreateMemCopy_of_present descriptor info
      ((QueueDescriptor.firstInputPresent_iff descriptor).mpr h)

end Factory

section SubTensor

open NeonWorkloadFactory.ArmComputeNeon

theorem readOrigin_eq (subTensorOrigin : List Nat) (index : Nat)
    (h : index < subTensorOrigin.length) :
    readOrigin subTensorOrigin index = Except.ok (subTensorOrigin.getD index 0) := by
  unfold readOrigin
  rw [List.getD_eq_getElem _ _ h, List.get?_eq_get h]
  rfl

theorem CreateSubTensorHandle.body_eq (subTensorShape : TensorShape) (subTensorOrigin : List Nat)
    (hlen : subTensorOrigin.length = subTensorShape.GetNumDimensions)
    (coords : Coordinates) (i : Nat) (hi : i < subTensorShape.GetNumDimensions)
    (hfit : subTensorOrigin.getD (subTensorShape.GetNumDimensions - i - 1) 0 ≤ 2147483647)
    (hnum : coords.num_dimensions = subTensorShape.GetNumDimensions) :
    CreateSubTensorHandle.body subTensorShape subTensorOrigin coords i =
      Except.ok ⟨coords.id.set i
        (Int.ofNat (subTensorOrigin.getD (subTensorShape.GetNumDimensions - i - 1) 0)),
        subTensorShape.GetNumDimensions⟩ := by
  have hrank : subTensorShape.GetNumDimensions ≤ 4 := subTensorShape.rank_le
  have hget := readOrigin_eq subTensorOrigin (subTensorShape.GetNumDimensions - i - 1) (by omega)
  have hcap : i < Coordinates.num_max_dimensions := by
    simp only [Coordinates.num_max_dimensions]; omega
  have hmax : max coords.num_dimensions (i + 1) = subTensorShape.GetNumDimensions := by
    rw [hnum]; omega
  simp only [CreateSubTensorHandle.body, hget, numeric_cast_int, hfit, if_true,
    Coordinates.set, hcap, hmax, bind, Except.bind, pure, Except.pure]

theorem CreateSubTensorHandle.body_overflow (subTensorShape : TensorShape)
    (subTensorOrigin : List Nat)
    (hlen : subTensorOrigin.length = subTensorShape.GetNumDimensions)
    (coords : Coordinates) (i : Nat) (hi : i < subTensorShape.GetNumDimensions)
    (hbig : 2147483647 < subTensorOrigin.getD (subTensorShape.GetNumDimensions - i - 1) 0) :
    CreateSubTensorHandle.body subTensorShape subTensorOrigin coords i =
      Except.error Failure.bad_numeric_cast := by
  have hget := readOrigin_eq subTensorOrigin (subTensorShape.GetNumDimensions - i - 1) (by omega)
  have hnot : ¬ subTensorOrigin.getD (subTensorShape.GetNumDimensions - i - 1) 0 ≤ 2147483647 := by
    omega
  simp only [CreateSubTensorHandle.body, hget, numeric_cast_int, hnot, if_false,
    bind, Except.bind, throw, throwThe, MonadExceptOf.throw]

theorem CreateSubTensorHandle.loop_upto (subTensorShape : TensorShape)
    (subTensorOrigin : List Nat)
    (hlen : subTensorOrigin.length = subTensorShape.GetNumDimensions) (k : Nat)
    (hk : k ≤ subTensorShape.GetNumDimensions)
    (hfit : ∀ j, j < k →
      subTensorOrigin.getD (subTensorShape.GetNumDimensions - j - 1) 0 ≤ 2147483647) :
    ∃ coords : Coordinates,
      (List.range k).foldlM (CreateSubTensorHandle.body subTensorShape subTensorOrigin)
        (Coordinates.empty.set_num_dimensions subTensorShape.GetNumDimensions) = Except.ok coords ∧
      coords.num_dimensions = subTensorShape.GetNumDimensions ∧
      coords.id.length = Coordinates.num_max_dimensions ∧
      ∀ j, j < k → coords.get j =
        Int.ofNat (subTensorOrigin.getD (subTensorShape.GetNumDimensions - j - 1) 0) := by
  induction k with
  | zero =>
    refine ⟨Coordinates.empty.set_num_dimensions subTensorShape.GetNumDimensions, rfl, rfl, rfl, ?_⟩
    intro j hj
    omega
  | succ k ih =>
    obtain ⟨coords, hrun, hnum, hcap, hval⟩ := ih (by omega) (fun j hj => hfit j (by omega))
    have hrank : subTensorShape.GetNumDimensions ≤ 4 := subTensorShape.rank_le
    have hkcap : k < coords.id.length := by
      rw [hcap]; simp only [Coordinates.num_max_dimensions]; omega
    refine ⟨⟨coords.id.set k
        (Int.ofNat (subTensorOrigin.getD (subTensorShape.GetNumDimensions - k - 1) 0)),
        subTensorShape.GetNumDimensions⟩, ?_, rfl, ?_, ?_⟩
    · rw [List.range_succ, List.foldlM_append, hrun]
      simp only [bind, Except.bind, List.foldlM, pure, Except.pure]
      rw [CreateSubTensorHandle.body_eq subTensorShape subTensorOrigin hlen coords k
        (by omega) (hfit k (by omega)) hnum]
    · simp only [List.length_set]
      exact hcap
    · intro j hj
      by_cases hjk : j = k
      · subst hjk
        simp only [Coordinates.get]
        rw [List.getD_eq_getElem _ _ (by simpa using hkcap)]
        simp
      · have hlt : j < k := by omega
        have := hval j hlt
        simp only [Coordinates.get] at this ⊢
        rw [← this]
        simp only [List.getD_eq_getElem?_getD]
        rw [List.getElem?_set_ne (by omega)]

theorem CreateSubTensorHandle.loop_overflow (subTensorShape : TensorShape)
    (subTensorOrigin : List Nat)
    (hlen : subTensorOrigin.length = subTensorShape.GetNumDimensions) (k : Nat)
    (hk : k ≤ subTensorShape.GetNumDimensions)
    (hbig : ∃ j, j < k ∧
      2147483647 < subTensorOrigin.getD (subTensorShape.GetNumDimensions - j - 1) 0) :
    (List.range k).foldlM (CreateSubTensorHandle.body subTensorShape subTensorOrigin)
      (Coordinates.empty.set_num_dimensions subTensorShape.GetNumDimensions) =
        Except.error Failure.bad_numeric_cast := by
  induction k with
  | zero =>
    obtain ⟨j, hj, _⟩ := hbig
    omega
  | succ k ih =>
    rw [List.range_succ, List.foldlM_append]
    by_cases hprev : ∃ j, j < k ∧
        2147483647 < subTensorOrigin.getD (subTensorShape.GetNumDimensions - j - 1) 0
    · rw [ih (by omega) hprev]
      rfl
    · have hfit : ∀ j, j < k →
          subTensorOrigin.getD (subTensorShape.GetNumDimensions - j - 1) 0 ≤ 2147483647 := by
        intro j hj
        by_contra hcon
        exact hprev ⟨j, hj, by omega⟩
      obtain ⟨coords, hrun, _, _, _⟩ :=
        CreateSubTensorHandle.loop_upto subTensorShape subTensorOrigin hlen k (by omega) hfit
      obtain ⟨j, hj, hjbig⟩ := hbig
      have hjk : j = k := by
        by_contra hne
        exact hprev ⟨j, by omega, hjbig⟩
      subst hjk
      rw [hrun]
      simp only [bind, Except.bind, List.foldlM, pure, Except.pure]
      rw [CreateSubTensorHandle.body_overflow subTensorShape subTensorOrigin hlen coords j
        (by omega) hjbig]

theorem CreateSubTensorHandle.result_of_fit (subTensorShape : TensorShape)
    (subTensorOrigin : List Nat)
    (hlen : subTensorOrigin.length = subTensorShape.GetNumDimensions)
    (hfit : ∀ v ∈ subTensorOrigin, v ≤ 2147483647) :
    ∃ coords : Coordinates,
      CreateSubTensorHandle.coords subTensorShape subTensorOrigin = Except.ok coords ∧
      coords.num_dimensions = subTensorShape.GetNumDimensions ∧
      (∀ i, i < subTensorShape.GetNumDimensions → coords.get i =
        Int.ofNat (subTensorOrigin.getD (subTensorShape.GetNumDimensions - 1 - i) 0)) ∧
      coords.toList.reverse = subTensorOrigin.map Int.ofNat ∧
      ∀ (asserts : Bool) (parent : ITensorHandle), parent.GetType = ITensorHandle.Kind.Neon →
        CreateSubTensorHandle asserts parent subTensorShape subTensorOrigin =
          Except.map some
            (NeonSubTensorHandle.make parent (BuildArmComputeTensorShape subTensorShape)
              coords) := by
  have hfit2 : ∀ j, j < subTensorShape.GetNumDimensions →
      subTensorOrigin.getD (subTensorShape.GetNumDimensions - j - 1) 0 ≤ 2147483647 := by
    intro j hj
    apply hfit
    rw [List.getD_eq_getElem _ _ (by omega)]
    exact List.getElem_mem _
  obtain ⟨coords, hloop, hnum, _, hval⟩ :=
    CreateSubTensorHandle.loop_upto subTensorShape subTensorOrigin hlen
      subTensorShape.GetNumDimensions (le_refl _) hfit2
  have hrun : CreateSubTensorHandle.coords subTensorShape subTensorOrigin = Except.ok coords :=
    hloop
  have hval2 : ∀ i, i < subTensorShape.GetNumDimensions → coords.get i =
      Int.ofNat (subTensorOrigin.getD (subTensorShape.GetNumDimensions - 1 - i) 0) := by
    intro i hi
    rw [hval i hi]
    have : subTensorShape.GetNumDimensions - i - 1 = subTensorShape.GetNumDimensions - 1 - i := by
      omega
    rw [this]
  refine ⟨coords, hrun, hnum, hval2, ?_, ?_⟩
  · apply List.ext_getElem
    · simp [Coordinates.toList, hnum, hlen]
    · intro i h1 h2
      simp only [Coordinates.toList, List.length_reverse, List.length_map, List.length_range,
        hnum] at h1
      simp only [List.length_map] at h2
      simp only [Coordinates.toList, List.getElem_reverse, List.getElem_map, List.getElem_range,
        List.length_map, List.length_range, hnum]
      rw [hval2 _ (by omega)]
      rw [List.getD_eq_getElem _ _ (by omega)]
      congr 2
      omega
  · intro asserts parent hparent
    simp only [CreateSubTensorHandle, BOOST_ASSERT, hparent, hrun, polymorphic_downcast,
      decide_True, Bool.not_true, Bool.and_false, Bool.false_eq_true, if_false, if_true, bind,
      Except.bind, pure, Except.pure, Except.map]

theorem getD_reverse_nat (l : List Nat) (i : Nat) (h : i < l.length) :
    l.reverse.getD i 0 = l.getD (l.length - 1 - i) 0 := by
  rw [List.getD_eq_getElem _ _ (by simpa using h), List.getD_eq_getElem _ _ (by omega),
    List.getElem_reverse]

/-- The check of the sub-tensor constructor, made in the native order on the reversed shape and
the reversed origin, holds exactly when the logical origin and shape describe a region of the
parent. -/
theorem NeonSubTensorHandle.withinParent_iff (parent : ITensorHandle)
    (subTensorShape : TensorShape) (subTensorOrigin : List Nat) (coords : Coordinates)
    (hnum : coords.num_dimensions = subTensorShape.GetNumDimensions)
    (hval : ∀ i, i < subTensorShape.GetNumDimensions → coords.get i =
      Int.ofNat (subTensorOrigin.getD (subTensorShape.GetNumDimensions - 1 - i) 0)) :
    NeonSubTensorHandle.WithinParent parent (BuildArmComputeTensorShape subTensorShape) coords ↔
      ¬ SubTensorOutOfBounds parent subTensorShape subTensorOrigin := by
  rcases parent with ⟨kind, ⟨pdims, pbound⟩⟩
  rcases subTensorShape with ⟨dims, bound⟩
  simp only [NeonSubTensorHandle.WithinParent, SubTensorOutOfBounds, BuildArmComputeTensorShape,
    TensorShape.GetNumDimensions, List.length_reverse] at hnum hval ⊢
  constructor
  · rintro ⟨hrank, _, hall⟩ hout
    rcases hout with hne | ⟨d, hd, hover⟩
    · exact hne hrank
    · have hi : dims.length - 1 - d < dims.length := by omega
      obtain ⟨_, hle⟩ := hall (dims.length - 1 - d) hi
      rw [hval _ hi, getD_reverse_nat dims _ hi, getD_reverse_nat pdims _ (by omega)] at hle
      have e1 : dims.length - 1 - (dims.length - 1 - d) = d := by omega
      have e2 : pdims.length - 1 - (dims.length - 1 - d) = d := by omega
      rw [e1, e2] at hle
      simp only [Int.ofNat_eq_coe] at hle
      omega
  · intro hin
    have hrank : dims.length = pdims.length := by
      by_contra hne
      exact hin (Or.inl hne)
    refine ⟨hrank, hnum, fun i hi => ?_⟩
    rw [hval i hi, getD_reverse_nat dims i hi, getD_reverse_nat pdims i (by omega)]
    have hd : ¬ pdims.getD (dims.length - 1 - i) 0 <
        subTensorOrigin.getD (dims.length - 1 - i) 0 + dims.getD (dims.length - 1 - i) 0 := by
      intro hover
      exact hin (Or.inr ⟨dims.length - 1 - i, by omega, hover⟩)
    have e : pdims.length - 1 - i = dims.length - 1 - i := by omega
    rw [e]
    simp only [Int.ofNat_eq_coe]
    omega

/-- C2: with the NEON backend compiled in, for a sub-tensor shape of rank `n` and an origin array
of `n` components, each at most `2^31 - 1`, `CreateSubTensorHandle` builds native coordinates
with exactly `n` dimensions and `coords[i] = origin[n - 1 - i]` for every `i < n`, so that the
native coordinates read backwards are the logical origin; on a Neon parent the call hands exactly
these coordinates, with the reversed shape, to the constructor of the sub-tensor handle, and for a
region that lies within the parent it returns the handle holding them. -/
theorem C2_CreateSubTensorHandle_coords_reversed (subTensorShape : TensorShape)
    (subTensorOrigin : List Nat)
    (hlen : subTensorOrigin.length = subTensorShape.GetNumDimensions)
    (hfit : ∀ v ∈ subTensorOrigin, v ≤ 2147483647) :
    ∃ coords : Coordinates,
      CreateSubTensorHandle.coords subTensorShape subTensorOrigin = Except.ok coords ∧
      coords.num_dimensions = subTensorShape.GetNumDimensions ∧
      (∀ i, i < subTensorShape.GetNumDimensions → coords.get i =
        Int.ofNat (subTensorOrigin.getD (subTensorShape.GetNumDimensions - 1 - i) 0)) ∧
      coords.toList.reverse = subTensorOrigin.map Int.ofNat ∧
      ∀ (asserts : Bool) (parent : ITensorHandle), parent.GetType = ITensorHandle.Kind.Neon →
        CreateSubTensorHandle asserts parent subTensorShape subTensorOrigin =
          Except.map some
            (NeonSubTensorHandle.make parent (BuildArmComputeTensorShape subTensorShape)
              coords) ∧
        (¬ SubTensorOutOfBounds parent subTensorShape subTensorOrigin →
          ∃ handle : NeonSubTensorHandle,
            CreateSubTensorHandle asserts parent subTensorShape subTensorOrigin =
              Except.ok (some handle) ∧
            handle.m_Parent = parent ∧
            handle.m_Shape = BuildArmComputeTensorShape subTensorShape ∧
            handle.m_Coords = coords) := by
  obtain ⟨coords, hrun, hnum, hval, hrev, hcall⟩ :=
    CreateSubTensorHandle.result_of_fit subTensorShape subTensorOrigin hlen hfit
  refine ⟨coords, hrun, hnum, hval, hrev, fun asserts parent hparent =>
    ⟨hcall asserts parent hparent, fun hin => ?_⟩⟩
  have hwithin := (NeonSubTensorHandle.withinParent_iff parent subTensorShape subTensorOrigin
    coords hnum hval).mpr hin
  refine ⟨⟨parent, BuildArmComputeTensorShape subTensorShape, coords, hwithin⟩, ?_, rfl, rfl,
    rfl⟩
  rw [hcall asserts parent hparent]
  simp [NeonSubTensorHandle.make, hwithin, Except.map, pure, Except.pure]

/-- C2, at a concrete input: shape `[2, 3, 4]` with origin `[1, 0, 2]`. -/
theorem C2_CreateSubTensorHandle_coords_reversed_witness :
    ∃ coords : Coordinates,
      CreateSubTensorHandle.coords ⟨[2, 3, 4], by decide⟩ [1, 0, 2] = Except.ok coords ∧
      coords.num_dimensions = (TensorShape.mk [2, 3, 4] (by decide)).GetNumDimensions ∧
      (∀ i, i < (TensorShape.mk [2, 3, 4] (by decide)).GetNumDimensions → coords.get i =
        Int.ofNat (([1, 0, 2] : List Nat).getD
          ((TensorShape.mk [2, 3, 4] (by decide)).GetNumDimensions - 1 - i) 0)) ∧
      coords.toList.reverse = ([1, 0, 2] : List Nat).map Int.ofNat ∧
      ∀ (asserts : Bool) (parent : ITensorHandle), parent.GetType = ITensorHandle.Kind.Neon →
        CreateSubTensorHandle asserts parent ⟨[2, 3, 4], by decide⟩ [1, 0, 2] =
          Except.map some
            (NeonSubTensorHandle.make parent (BuildArmComputeTensorShape ⟨[2, 3, 4], by decide⟩)
              coords) ∧
        (¬ SubTensorOutOfBounds parent ⟨[2, 3, 4], by decide⟩ [1, 0, 2] →
          ∃ handle : NeonSubTensorHandle,
            CreateSubTensorHandle asserts parent ⟨[2, 3, 4], by decide⟩ [1, 0, 2] =
              Except.ok (some handle) ∧
            handle.m_Parent = parent ∧
            handle.m_Shape = BuildArmComputeTensorShape ⟨[2, 3, 4], by decide⟩ ∧
            handle.m_Coords = coords) :=
  C2_CreateSubTensorHandle_coords_reversed ⟨[2, 3, 4], by decide⟩ [1, 0, 2] rfl (by decide)

/-- C5: `CreateSubTensorHandle` never returns a handle for an out-of-range or rank-mismatched
origin. For every parent handle, sub-tensor shape and origin (of one component for each dimension
of the sub-tensor) such that the rank of the sub-tensor differs from the rank of the parent, or
`origin[d] + subShape[d]` exceeds the extent of the parent in some dimension `d`, the call ends
in a failure and produces no handle, with assertions compiled in or out; on a Neon parent the
failure is the fatal error of the sub-tensor constructor when every origin component fits an
`int`, and `bad_numeric_cast` otherwise. -/
theorem C5_CreateSubTensorHandle_rejects_out_of_bounds (asserts : Bool)
    (parent : ITensorHandle) (subTensorShape : TensorShape) (subTensorOrigin : List Nat)
    (hlen : subTensorOrigin.length = subTensorShape.GetNumDimensions)
    (hout : SubTensorOutOfBounds parent subTensorShape subTensorOrigin) :
    ∃ failure,
      CreateSubTensorHandle asserts parent subTensorShape subTensorOrigin =
        Except.error failure ∧
      (parent.GetType = ITensorHandle.Kind.Neon → (∀ v ∈ subTensorOrigin, v ≤ 2147483647) →
        failure = Failure.FatalError) ∧
      (parent.GetType = ITensorHandle.Kind.Neon → (∃ v ∈ subTensorOrigin, 2147483647 < v) →
        failure = Failure.bad_numeric_cast) := by
  by_cases hparent : parent.GetType = ITensorHandle.Kind.Neon
  · by_cases hfit : ∀ v ∈ subTensorOrigin, v ≤ 2147483647
    · obtain ⟨coords, _, hnum, hval, _, hcall⟩ :=
        CreateSubTensorHandle.result_of_fit subTensorShape subTensorOrigin hlen hfit
      have hnot : ¬ NeonSubTensorHandle.WithinParent parent
          (BuildArmComputeTensorShape subTensorShape) coords := by
        intro hwithin
        exact (NeonSubTensorHandle.withinParent_iff parent subTensorShape subTensorOrigin
          coords hnum hval).mp hwithin hout
      refine ⟨Failure.FatalError, ?_, fun _ _ => rfl, fun _ hbig => ?_⟩
      · rw [hcall asserts parent hparent]
        simp [NeonSubTensorHandle.make, hnot, Except.map, throw, throwThe, MonadExceptOf.throw]
      · obtain ⟨v, hv, hvbig⟩ := hbig
        have := hfit v hv
        omega
    · have hbig : ∃ v ∈ subTensorOrigin, 2147483647 < v := by
        by_contra hnone
        apply hfit
        intro v hv
        by_contra hvbig
        exact hnone ⟨v, hv, by omega⟩
      obtain ⟨v, hv, hvbig⟩ := hbig
      obtain ⟨m, hm, hmv⟩ := List.getElem_of_mem hv
      have hloop := CreateSubTensorHandle.loop_overflow subTensorShape subTensorOrigin hlen
        subTensorShape.GetNumDimensions (le_refl _)
        ⟨subTensorShape.GetNumDimensions - 1 - m, by omega, by
          have hidx : subTensorShape.GetNumDimensions -
              (subTensorShape.GetNumDimensions - 1 - m) - 1 = m := by omega
          rw [hidx, List.getD_eq_getElem _ _ hm, hmv]
          exact hvbig⟩
      have hrun : CreateSubTensorHandle.coords subTensorShape subTensorOrigin =
          Except.error Failure.bad_numeric_cast := hloop
      refine ⟨Failure.bad_numeric_cast, ?_, fun _ hall => absurd hall hfit, fun _ _ => rfl⟩
      simp [CreateSubTensorHandle, BOOST_ASSERT, hparent, hrun, bind, Except.bind, pure,
        Except.pure]
  · cases asserts
    · cases hrun : CreateSubTensorHandle.coords subTensorShape subTensorOrigin with
      | error failure =>
        refine ⟨failure, ?_, fun h => absurd h hparent, fun h => absurd h hparent⟩
        simp [CreateSubTensorHandle, BOOST_ASSERT, hrun, bind, Except.bind, pure, Except.pure]
      | ok coords =>
        refine ⟨Failure.UndefinedBehaviour, ?_, fun h => absurd h hparent,
          fun h => absurd h hparent⟩
        simp [CreateSubTensorHandle, BOOST_ASSERT, hrun, hparent, polymorphic_downcast, bind,
          Except.bind, pure, Except.pure, throw, throwThe, MonadExceptOf.throw]
    · refine ⟨Failure.AssertionFailed, ?_, fun h => absurd h hparent, fun h => absurd h hparent⟩
      simp [CreateSubTensorHandle, BOOST_ASSERT, hparent, bind, Except.bind, throw, throwThe,
        MonadExceptOf.throw]

/-- C5, at a concrete input: on a Neon parent of shape `[2, 2]`, the sub-tensor shape `[4, 4]` at
origin `[1, 1]` runs past the parent in both dimensions. -/
theorem C5_CreateSubTensorHandle_rejects_out_of_bounds_witness :
    ∃ failure,
      CreateSubTensorHandle true ⟨ITensorHandle.Kind.Neon, ⟨[2, 2], by decide⟩⟩
          ⟨[4, 4], by decide⟩ [1, 1] = Except.error failure ∧
      ((ITensorHandle.mk ITensorHandle.Kind.Neon ⟨[2, 2], by decide⟩).GetType =
          ITensorHandle.Kind.Neon → (∀ v ∈ ([1, 1] : List Nat), v ≤ 2147483647) →
        failure = Failure.FatalError) ∧
      ((ITensorHandle.mk ITensorHandle.Kind.Neon ⟨[2, 2], by decide⟩).GetType =
          ITensorHandle.Kind.Neon → (∃ v ∈ ([1, 1] : List Nat), 2147483647 < v) →
        failure = Failure.bad_numeric_cast) :=
  C5_CreateSubTensorHandle_rejects_out_of_bounds true
    ⟨ITensorHandle.Kind.Neon, ⟨[2, 2], by decide⟩⟩ ⟨[4, 4], by decide⟩ [1, 1] rfl
    (Or.inr ⟨0, by decide, by decide⟩)

end SubTensor

section Dispatch

open NeonWorkloadFactory.ArmComputeNeon

/-- C3: with the NEON backend compiled in, on a workload info whose runtime data type is
`QuantisedAsymm8`, each of `CreateFullyConnected`, `CreateNormalization`, `CreateAddition`,
`CreateMultiplication`, `CreateBatchNormalization`, `CreateL2Normalization`, `CreateFloor` and
`CreateLstm` returns null without raising a failure, whatever the descriptor; and
`CreateResizeBilinear` and `CreateFakeQuantization` return null without raising a failure for
every descriptor and every workload info. -/
theorem C3_unsupported_returns_null (descriptor : QueueDescriptor)
    (batchNormalization : BatchNormalizationQueueDescriptor) (info anyInfo : WorkloadInfo)
    (h : info.runtimeDataType = some DataType.QuantisedAsymm8) :
    ReturnsNull (CreateFullyConnected descriptor info) ∧
    ReturnsNull (CreateNormalization descriptor info) ∧
    ReturnsNull (CreateAddition descriptor info) ∧
    ReturnsNull (CreateMultiplication descriptor info) ∧
    ReturnsNull (CreateBatchNormalization batchNormalization info) ∧
    ReturnsNull (CreateL2Normalization descriptor info) ∧
    ReturnsNull (CreateFloor descriptor info) ∧
    ReturnsNull (CreateLstm descriptor info) ∧
    ReturnsNull (CreateResizeBilinear descriptor anyInfo) ∧
    ReturnsNull (CreateFakeQuantization descriptor anyInfo) := by
  simp [ReturnsNull, CreateFullyConnected, CreateNormalization, CreateAddition,
    CreateMultiplication, CreateBatchNormalization, CreateL2Normalization, CreateFloor,
    CreateLstm, CreateResizeBilinear, CreateFakeQuantization, MakeWorkload, MakeWorkloadForType,
    h, pure, Except.pure]

/-- C3, at a concrete input: empty descriptors, a `QuantisedAsymm8` info for the typed entry
points and a `Float32` info for the two entry points that never build a workload. -/
theorem C3_unsupported_returns_null_witness :
    ReturnsNull (CreateFullyConnected ⟨[], []⟩ (exampleInfo DataType.QuantisedAsymm8)) ∧
    ReturnsNull (CreateNormalization ⟨[], []⟩ (exampleInfo DataType.QuantisedAsymm8)) ∧
    ReturnsNull (CreateAddition ⟨[], []⟩ (exampleInfo DataType.QuantisedAsymm8)) ∧
    ReturnsNull (CreateMultiplication ⟨[], []⟩ (exampleInfo DataType.QuantisedAsymm8)) ∧
    ReturnsNull (CreateBatchNormalization BatchNormalizationQueueDescriptor.empty
      (exampleInfo DataType.QuantisedAsymm8)) ∧
    ReturnsNull (CreateL2Normalization ⟨[], []⟩ (exampleInfo DataType.QuantisedAsymm8)) ∧
    ReturnsNull (CreateFloor ⟨[], []⟩ (exampleInfo DataType.QuantisedAsymm8)) ∧
    ReturnsNull (CreateLstm ⟨[], []⟩ (exampleInfo DataType.QuantisedAsymm8)) ∧
    ReturnsNull (CreateResizeBilinear ⟨[], []⟩ (exampleInfo DataType.Float32)) ∧
    ReturnsNull (CreateFakeQuantization ⟨[], []⟩ (exampleInfo DataType.Float32)) :=
  C3_unsupported_returns_null ⟨[], []⟩ BatchNormalizationQueueDescriptor.empty
    (exampleInfo DataType.QuantisedAsymm8) (exampleInfo DataType.Float32) rfl

end Dispatch

section BatchNormalization

open BatchNormalizationLayer

/-- C6 as stated fails: in a build that compiles assertions out, a layer whose mean is null (its
other three constants are set) does not fail in `CreateWorkload`; the factory is called once,
with a descriptor whose mean reference is null, and what the factory returns (here the null of
the Neon factory compiled without the ArmCompute libraries) is returned to the caller. -/
theorem C6_counterexample_null_mean_reaches_factory :
    exampleLayerNullMean.m_Mean = none ∧
    (CreateWorkload false exampleLayerNullMean ⟨[]⟩
        NeonWorkloadFactory.NoArmCompute.factory).factoryCalls =
      [({ m_Inputs := [], m_Outputs := [none], m_Parameters := ⟨7⟩, m_Mean := none,
          m_Variance := some 0, m_Beta := some 1, m_Gamma := some 2 },
        { m_InputTensorInfos := [], m_OutputTensorInfos := [unsetTensorInfo] })] ∧
    (CreateWorkload false exampleLayerNullMean ⟨[]⟩
        NeonWorkloadFactory.NoArmCompute.factory).result = Except.ok none := by
  refine ⟨rfl, rfl, rfl⟩

/-- C6, amended: in a build that compiles assertions in, for every batch normalization layer in
which at least one of the four constants (mean, variance, beta, gamma) is null,
`CreateWorkload` fails at once with an assertion failure and makes no call to the factory, so
the factory is handed no descriptor at all. -/
theorem C6_CreateWorkload_asserts_constants (layer : BatchNormalizationLayer) (graph : Graph)
    (factory : IWorkloadFactory)
    (h : ∃ slot, layer.constant slot = none) :
    (CreateWorkload true layer graph factory).factoryCalls = [] ∧
    (CreateWorkload true layer graph factory).result = Except.error Failure.AssertionFailed := by
  obtain ⟨slot, hslot⟩ := h
  rcases layer with ⟨param, name, inputSlot, outputSlot, mean, variance, beta, gamma⟩
  rcases mean with _ | mean <;> rcases variance with _ | variance <;>
    rcases beta with _ | beta <;> rcases gamma with _ | gamma <;>
    first
    | exact ⟨rfl, rfl⟩
    | (cases slot <;> simp [constant] at hslot)

/-- C6 amended, at a concrete input: the layer with a null mean, compiled against the Neon
factory. -/
theorem C6_CreateWorkload_asserts_constants_witness :
    (CreateWorkload true exampleLayerNullMean ⟨[]⟩
        NeonWorkloadFactory.ArmComputeNeon.factory).factoryCalls = [] ∧
    (CreateWorkload true exampleLayerNullMean ⟨[]⟩
        NeonWorkloadFactory.ArmComputeNeon.factory).result =
      Except.error Failure.AssertionFailed :=
  C6_CreateWorkload_asserts_constants exampleLayerNullMean ⟨[]⟩
    NeonWorkloadFactory.ArmComputeNeon.factory ⟨ConstantSlot.Mean, rfl⟩

/-- C9: for a batch normalization layer whose input slot is connected, with a shape inference
rule that infers one shape from the shape of the connected input,
`ValidateTensorShapesFromInputs` raises `LayerValidationException` exactly when the shape
attached to output slot 0 differs from the inferred shape, and returns normally when the two are
equal. -/
theorem C9_ValidateTensorShapesFromInputs_throws_iff (asserts : Bool)
    (InferOutputShapes : List TensorShape → List TensorShape) (layer : BatchNormalizationLayer)
    (connection : OutputSlot) (inferred : TensorShape)
    (hconnected : layer.GetInputSlot.GetConnection = some connection)
    (hinfer : InferOutputShapes [connection.GetTensorInfo.GetShape] = [inferred]) :
    (ValidateTensorShapesFromInputs asserts InferOutputShapes layer =
        Except.error Failure.LayerValidationException ↔
      layer.GetOutputSlot.GetTensorInfo.GetShape ≠ inferred) ∧
    (layer.GetOutputSlot.GetTensorInfo.GetShape = inferred →
      ValidateTensorShapesFromInputs asserts InferOutputShapes layer = Except.ok ()) := by
  have hrun : ValidateTensorShapesFromInputs asserts InferOutputShapes layer =
      ConditionalThrowIfNotEqual layer.GetOutputSlot.GetTensorInfo.GetShape inferred := by
    cases asserts <;>
    simp [ValidateTensorShapesFromInputs, VerifyLayerConnections, hconnected, hinfer,
      BOOST_ASSERT, bind, Except.bind, pure, Except.pure]
  rw [hrun]
  by_cases hshape : layer.GetOutputSlot.GetTensorInfo.GetShape = inferred
  · simp [ConditionalThrowIfNotEqual, hshape, pure, Except.pure]
  · simp [ConditionalThrowIfNotEqual, hshape, throw, throwThe, MonadExceptOf.throw]

/-- C9, at a concrete input: a layer connected to a `[1, 4]` producer whose own output slot
carries the shape `[1, 4]`, under the rule that hands the input shapes back. -/
theorem C9_ValidateTensorShapesFromInputs_throws_iff_witness :
    (ValidateTensorShapesFromInputs true id exampleLayerConnected =
        Except.error Failure.LayerValidationException ↔
      exampleLayerConnected.GetOutputSlot.GetTensorInfo.GetShape ≠ ⟨[1, 4], by decide⟩) ∧
    (exampleLayerConnected.GetOutputSlot.GetTensorInfo.GetShape = ⟨[1, 4], by decide⟩ →
      ValidateTensorShapesFromInputs true id exampleLayerConnected = Except.ok ()) :=
  C9_ValidateTensorShapesFromInputs_throws_iff true id exampleLayerConnected
    ⟨⟨⟨[1, 4], by decide⟩, DataType.Float32, 0, 0⟩, none⟩ ⟨[1, 4], by decide⟩ rfl rfl

/-- C11: for a batch normalization layer whose four constants are all non-null and any factory,
with assertions compiled in or out, `CreateWorkload` calls `CreateBatchNormalization` of the
factory exactly once, with a descriptor whose mean, variance, beta and gamma references are the
mean, variance, beta and gamma pointers of the layer itself, and returns exactly what that call
returned; a null result of the factory reaches the caller as null. -/
theorem C11_CreateWorkload_forwards_constants (asserts : Bool) (layer : BatchNormalizationLayer)
    (graph : Graph) (factory : IWorkloadFactory)
    (hconstants : ∀ slot, layer.constant slot ≠ none) :
    ∃ (descriptor : BatchNormalizationQueueDescriptor) (info : WorkloadInfo),
      (CreateWorkload asserts layer graph factory).factoryCalls = [(descriptor, info)] ∧
      descriptor.m_Mean = layer.m_Mean ∧
      descriptor.m_Variance = layer.m_Variance ∧
      descriptor.m_Beta = layer.m_Beta ∧
      descriptor.m_Gamma = layer.m_Gamma ∧
      (CreateWorkload asserts layer graph factory).result =
        factory.CreateBatchNormalization descriptor info ∧
      (ReturnsNull (factory.CreateBatchNormalization descriptor info) →
        ReturnsNull (CreateWorkload asserts layer graph factory).result) := by
  have hmean := hconstants ConstantSlot.Mean
  have hvariance := hconstants ConstantSlot.Variance
  have hbeta := hconstants ConstantSlot.Beta
  have hgamma := hconstants ConstantSlot.Gamma
  rcases layer with ⟨param, name, inputSlot, outputSlot, mean, variance, beta, gamma⟩
  simp only [constant] at hmean hvariance hbeta hgamma
  rcases mean with _ | mean
  · exact absurd rfl hmean
  rcases variance with _ | variance
  · exact absurd rfl hvariance
  rcases beta with _ | beta
  · exact absurd rfl hbeta
  rcases gamma with _ | gamma
  · exact absurd rfl hgamma
  cases asserts <;> exact ⟨_, _, rfl, rfl, rfl, rfl, rfl, rfl, fun h => h⟩

/-- C11, at a concrete input: the layer with all four constants set, compiled against the Neon
factory built without the ArmCompute libraries, whose null result reaches the caller. -/
theorem C11_CreateWorkload_forwards_constants_witness :
    (∃ (descriptor : BatchNormalizationQueueDescriptor) (info : WorkloadInfo),
      (CreateWorkload true exampleLayerAllConstants ⟨[]⟩
        NeonWorkloadFactory.NoArmCompute.factory).factoryCalls = [(descriptor, info)] ∧
      descriptor.m_Mean = exampleLayerAllConstants.m_Mean ∧
      descriptor.m_Variance = exampleLayerAllConstants.m_Variance ∧
      descriptor.m_Beta = exampleLayerAllConstants.m_Beta ∧
      descriptor.m_Gamma = exampleLayerAllConstants.m_Gamma ∧
      (CreateWorkload true exampleLayerAllConstants ⟨[]⟩
          NeonWorkloadFactory.NoArmCompute.factory).result =
        NeonWorkloadFactory.NoArmCompute.factory.CreateBatchNormalization descriptor info ∧
      (ReturnsNull (NeonWorkloadFactory.NoArmCompute.factory.CreateBatchNormalization
          descriptor info) →
        ReturnsNull (CreateWorkload true exampleLayerAllConstants ⟨[]⟩
          NeonWorkloadFactory.NoArmCompute.factory).result)) ∧
    (CreateWorkload true exampleLayerAllConstants ⟨[]⟩
        NeonWorkloadFactory.NoArmCompute.factory).factoryCalls.map
      (fun call => (call.1.m_Mean, call.1.m_Variance, call.1.m_Beta, call.1.m_Gamma)) =
      [(some 0, some 1, some 2, some 3)] ∧
    (CreateWorkload true exampleLayerAllConstants ⟨[]⟩
        NeonWorkloadFactory.NoArmCompute.factory).result = Except.ok none :=
  ⟨C11_CreateWorkload_forwards_constants true exampleLayerAllConstants ⟨[]⟩
    NeonWorkloadFactory.NoArmCompute.factory (by
      intro slot
      cases slot <;> simp [exampleLayerAllConstants, constant, ctor]),
    rfl, rfl⟩

end BatchNormalization

section Clone

open BatchNormalizationLayer

theorem exampleLayerWithConstants_alive : exampleLayerWithConstants.ConstantsAlive exampleHeap := by
  intro slot address h
  cases slot <;> simp [exampleLayerWithConstants, constant, ctor] at h <;> subst h <;>
    exact ⟨_, rfl⟩

theorem Heap.read_lt (heap : Heap) (address : HandleAddr) (object : ScopedCpuTensorHandle)
    (h : heap.read address = some object) : address < heap.objects.length := by
  by_contra hge
  have hlen : heap.objects.length ≤ address := Nat.le_of_not_lt hge
  rw [Heap.read, List.getD_eq_default _ _ hlen] at h
  cases h

theorem Heap.read_of_prefix (heap later : Heap) (address : HandleAddr)
    (object : ScopedCpuTensorHandle) (hext : heap.objects <+: later.objects)
    (h : heap.read address = some object) : later.read address = some object := by
  have hlt := Heap.read_lt heap address object h
  obtain ⟨extra, hextra⟩ := hext
  unfold Heap.read at h ⊢
  rw [← hextra, List.getD_append _ _ _ _ hlt]
  exact h

theorem Heap.read_alloc (heap : Heap) (object : ScopedCpuTensorHandle) :
    (heap.alloc object).2.read (heap.alloc object).1 = some object := by
  simp [Heap.alloc, Heap.read]

theorem Clone.copyConstant_none (heap : Heap) :
    Clone.copyConstant heap none = Except.ok (none, heap) := rfl

theorem Clone.copyConstant_some (heap : Heap) (address : HandleAddr)
    (object : ScopedCpuTensorHandle) (h : heap.read address = some object) :
    Clone.copyConstant heap (some address) =
      Except.ok (some heap.objects.length, ⟨heap.objects ++ [some object.copy]⟩) := by
  simp [Clone.copyConstant, h, Heap.alloc, pure, Except.pure]

/-- What one line of `Clone` does to a member whose object, if any, is alive in the heap the
layer was built on: a null member stays null; otherwise a fresh object with the contents of the
original is appended to the heap. -/
theorem Clone.copyConstant_spec (original heap : Heap) (source : Option HandleAddr)
    (hext : original.objects <+: heap.objects)
    (halive : ∀ address, source = some address → ∃ object, original.read address = some object) :
    ∃ (result : Option HandleAddr) (later : Heap),
      Clone.copyConstant heap source = Except.ok (result, later) ∧
      heap.objects <+: later.objects ∧
      (source = none → result = none) ∧
      (∀ address object, source = some address → original.read address = some object →
        ∃ fresh, result = some fresh ∧ later.read fresh = some object.copy ∧
          original.objects.length ≤ fresh) ∧
      (∀ fresh : Nat, result = some fresh →
        heap.objects.length ≤ fresh ∧ fresh < later.objects.length) := by
  cases source with
  | none =>
    refine ⟨none, heap, rfl, List.prefix_refl _, fun _ => rfl, ?_, ?_⟩
    · intro address object h
      cases h
    · intro fresh h
      cases h
  | some address =>
    obtain ⟨object, hobject⟩ := halive address rfl
    have hread := Heap.read_of_prefix original heap address object hext hobject
    refine ⟨some heap.objects.length, ⟨heap.objects ++ [some object.copy]⟩,
      Clone.copyConstant_some heap address object hread, List.prefix_append _ _, ?_, ?_, ?_⟩
    · intro h
      cases h
    · intro address2 object2 h hread2
      cases h
      rw [hobject] at hread2
      cases hread2
      refine ⟨heap.objects.length, rfl, ?_, hext.length_le⟩
      simp [Heap.read]
    · intro fresh h
      cases h
      simp

/-- What `Clone` returns for a layer whose non-null constants are alive: shared by the theorems
on the contents of the clone and on its independence. -/
theorem Clone.spec (layer : BatchNormalizationLayer) (graph : Graph) (heap : Heap)
    (halive : layer.ConstantsAlive heap) :
    ∃ (clone : BatchNormalizationLayer) (later : Heap),
      Clone layer graph heap = Except.ok (clone, ⟨graph.m_Layers ++ [clone]⟩, later) ∧
      clone.m_Param = layer.m_Param ∧
      clone.GetName = layer.GetName ∧
      heap.objects <+: later.objects ∧
      (∀ slot,
        (layer.constant slot = none → clone.constant slot = none) ∧
        (∀ address object, layer.constant slot = some address →
          heap.read address = some object →
          ∃ fresh, clone.constant slot = some fresh ∧ later.read fresh = some object.copy ∧
            heap.objects.length ≤ fresh)) ∧
      (∀ slot slot2 a b, slot ≠ slot2 → clone.constant slot = some a →
        clone.constant slot2 = some b → a ≠ b) := by
  obtain ⟨mean, heap1, e1, p1, n1, s1, r1⟩ := Clone.copyConstant_spec heap heap layer.m_Mean
    (List.prefix_refl _) (halive ConstantSlot.Mean)
  obtain ⟨variance, heap2, e2, p2, n2, s2, r2⟩ :=
    Clone.copyConstant_spec heap heap1 layer.m_Variance p1 (halive ConstantSlot.Variance)
  obtain ⟨beta, heap3, e3, p3, n3, s3, r3⟩ := Clone.copyConstant_spec heap heap2 layer.m_Beta
    (p1.trans p2) (halive ConstantSlot.Beta)
  obtain ⟨gamma, heap4, e4, p4, n4, s4, r4⟩ := Clone.copyConstant_spec heap heap3 layer.m_Gamma
    ((p1.trans p2).trans p3) (halive ConstantSlot.Gamma)
  refine ⟨{ CloneBase graph layer.m_Param layer.GetName with
      m_Mean := mean, m_Variance := variance, m_Beta := beta, m_Gamma := gamma }, heap4, ?_,
    rfl, rfl, ((p1.trans p2).trans p3).trans p4, ?_, ?_⟩
  · simp only [Clone, e1, e2, e3, e4, bind, Except.bind, pure, Except.pure]
  · intro slot
    cases slot
    · refine ⟨n1, fun address object ha hread => ?_⟩
      obtain ⟨fresh, hfresh, hread2, hle⟩ := s1 address object ha hread
      exact ⟨fresh, hfresh,
        Heap.read_of_prefix heap1 heap4 fresh _ ((p2.trans p3).trans p4) hread2, hle⟩
    · refine ⟨n2, fun address object ha hread => ?_⟩
      obtain ⟨fresh, hfresh, hread2, hle⟩ := s2 address object ha hread
      exact ⟨fresh, hfresh, Heap.read_of_prefix heap2 heap4 fresh _ (p3.trans p4) hread2, hle⟩
    · refine ⟨n3, fun address object ha hread => ?_⟩
      obtain ⟨fresh, hfresh, hread2, hle⟩ := s3 address object ha hread
      exact ⟨fresh, hfresh, Heap.read_of_prefix heap3 heap4 fresh _ p4 hread2, hle⟩
    · refine ⟨n4, fun address object ha hread => ?_⟩
      obtain ⟨fresh, hfresh, hread2, hle⟩ := s4 address object ha hread
      exact ⟨fresh, hfresh, hread2, hle⟩
  · have l2 := p2.length_le
    have l3 := p3.length_le
    have l4 := p4.length_le
    intro slot slot2 a b hne ha hb hab
    subst hab
    cases slot <;> cases slot2 <;> simp only [constant] at ha hb <;>
      first
      | exact absurd rfl hne
      | (have ba := r1 a ha
         have bb := r2 a hb
         omega)
      | (have ba := r1 a ha
         have bb := r3 a hb
         omega)
      | (have ba := r1 a ha
         have bb := r4 a hb
         omega)
      | (have ba := r2 a ha
         have bb := r1 a hb
         omega)
      | (have ba := r2 a ha
         have bb := r3 a hb
         omega)
      | (have ba := r2 a ha
         have bb := r4 a hb
         omega)
      | (have ba := r3 a ha
         have bb := r1 a hb
         omega)
      | (have ba := r3 a ha
         have bb := r2 a hb
         omega)
      | (have ba := r3 a ha
         have bb := r4 a hb
         omega)
      | (have ba := r4 a ha
         have bb := r1 a hb
         omega)
      | (have ba := r4 a ha
         have bb := r2 a hb
         omega)
      | (have ba := r4 a ha
         have bb := r3 a hb
         omega)

theorem Heap.read_fresh (heap : Heap) (address : HandleAddr)
    (h : heap.objects.length ≤ address) : heap.read address = none := by
  rw [Heap.read, List.getD_eq_default _ _ h]

/-- C7: for a batch normalization layer whose non-null constants are alive and any target graph,
`Clone` returns a new layer, added to the target graph, with the same descriptor parameters and
the same name, in which each of mean, variance, beta and gamma is null exactly when it is null in
the original and otherwise points at a copy of the constant of the original in the same slot: a
new handle object, at an address that held no object before and differs from the address of the
original and from the addresses of the other constants of the clone, holding the tensor info and
the contents of the original, which stays where it was. -/
theorem C7_Clone_copies_each_constant (layer : BatchNormalizationLayer) (graph : Graph)
    (heap : Heap) (halive : layer.ConstantsAlive heap) :
    ∃ (clone : BatchNormalizationLayer) (target : Graph) (later : Heap),
      Clone layer graph heap = Except.ok (clone, target, later) ∧
      clone.m_Param = layer.m_Param ∧
      clone.GetName = layer.GetName ∧
      target.m_Layers = graph.m_Layers ++ [clone] ∧
      (∀ slot,
        ((clone.constant slot).isSome = (layer.constant slot).isSome) ∧
        (layer.constant slot = none → clone.constant slot = none) ∧
        (∀ address object, layer.constant slot = some address →
          heap.read address = some object →
          ∃ fresh copied, clone.constant slot = some fresh ∧
            fresh ≠ address ∧
            heap.read fresh = none ∧
            later.read fresh = some copied ∧
            clone.constantData later slot = some copied ∧
            copied.m_TensorInfo = object.m_TensorInfo ∧ copied.m_Memory = object.m_Memory ∧
            later.read address = some object)) ∧
      (∀ slot slot2 a b, slot ≠ slot2 → clone.constant slot = some a →
        clone.constant slot2 = some b → a ≠ b) := by
  obtain ⟨clone, later, hclone, hparam, hname, hext, hslots, hdistinct⟩ :=
    Clone.spec layer graph heap halive
  refine ⟨clone, _, later, hclone, hparam, hname, rfl,
    fun slot => ⟨?_, (hslots slot).1, ?_⟩, hdistinct⟩
  · cases hc : layer.constant slot with
    | none => rw [(hslots slot).1 hc]
    | some address =>
      obtain ⟨object, hobject⟩ := halive slot address hc
      obtain ⟨fresh, hfresh, _, _⟩ := (hslots slot).2 address object hc hobject
      rw [hfresh]
      rfl
  · intro address object hc hobject
    obtain ⟨fresh, hfresh, hread, hle⟩ := (hslots slot).2 address object hc hobject
    have hlt := Heap.read_lt heap address object hobject
    refine ⟨fresh, object.copy, hfresh, ?_, Heap.read_fresh heap fresh hle, hread, ?_, rfl, rfl,
      Heap.read_of_prefix heap later address object hext hobject⟩
    · intro heq
      rw [heq] at hle
      exact absurd hlt (Nat.not_lt.mpr hle)
    · simp only [constantData, hfresh, hread]

/-- C7, at a concrete input: the layer with mean, beta and gamma set and a null variance. -/
theorem C7_Clone_copies_each_constant_witness :
    ∃ (clone : BatchNormalizationLayer) (target : Graph) (later : Heap),
      Clone exampleLayerWithConstants ⟨[]⟩ exampleHeap = Except.ok (clone, target, later) ∧
      clone.m_Param = exampleLayerWithConstants.m_Param ∧
      clone.GetName = exampleLayerWithConstants.GetName ∧
      target.m_Layers = (Graph.mk []).m_Layers ++ [clone] ∧
      (∀ slot,
        ((clone.constant slot).isSome = (exampleLayerWithConstants.constant slot).isSome) ∧
        (exampleLayerWithConstants.constant slot = none → clone.constant slot = none) ∧
        (∀ address object, exampleLayerWithConstants.constant slot = some address →
          exampleHeap.read address = some object →
          ∃ fresh copied, clone.constant slot = some fresh ∧
            fresh ≠ address ∧
            exampleHeap.read fresh = none ∧
            later.read fresh = some copied ∧
            clone.constantData later slot = some copied ∧
            copied.m_TensorInfo = object.m_TensorInfo ∧ copied.m_Memory = object.m_Memory ∧
            later.read address = some object)) ∧
      (∀ slot slot2 a b, slot ≠ slot2 → clone.constant slot = some a →
        clone.constant slot2 = some b → a ≠ b) :=
  C7_Clone_copies_each_constant exampleLayerWithConstants ⟨[]⟩ exampleHeap
    exampleLayerWithConstants_alive

theorem Heap.read_write_ne (heap : Heap) (written address : HandleAddr)
    (object : ScopedCpuTensorHandle) (hne : address ≠ written) :
    (heap.write written object).read address = heap.read address := by
  simp only [Heap.read, Heap.write, List.getD_eq_getElem?_getD]
  rw [List.getElem?_set_ne (Ne.symm hne)]

theorem Heap.read_free_ne (heap : Heap) (freed address : HandleAddr) (hne : address ≠ freed) :
    (heap.free freed).read address = heap.read address := by
  simp only [Heap.read, Heap.free, List.getD_eq_getElem?_getD]
  rw [List.getElem?_set_ne (Ne.symm hne)]

/-- Overwriting a constant of one layer leaves the constants of a layer that shares no handle
object with it as they were. -/
theorem constantData_overwriteConstant_of_disjoint (writer reader : BatchNormalizationLayer)
    (heap : Heap)
    (hdisjoint : ∀ slot slot2 a b, writer.constant slot = some a →
      reader.constant slot2 = some b → a ≠ b)
    (slot : ConstantSlot) (memory : Option (List Nat)) (slot2 : ConstantSlot) :
    reader.constantData (writer.overwriteConstant heap slot memory) slot2 =
      reader.constantData heap slot2 := by
  unfold overwriteConstant constantData
  cases hw : writer.constant slot with
  | none => rfl
  | some a =>
    cases hr : reader.constant slot2 with
    | none => rfl
    | some b =>
      cases hobject : heap.read a with
      | none => simp only [hobject]
      | some object =>
        simp only [hobject]
        exact Heap.read_write_ne heap a b _ (Ne.symm (hdisjoint slot slot2 a b hw hr))

/-- Releasing a constant of one layer leaves the constants of a layer that shares no handle
object with it as they were. -/
theorem constantData_releaseConstant_of_disjoint (writer reader : BatchNormalizationLayer)
    (heap : Heap)
    (hdisjoint : ∀ slot slot2 a b, writer.constant slot = some a →
      reader.constant slot2 = some b → a ≠ b)
    (slot slot2 : ConstantSlot) :
    reader.constantData (writer.releaseConstant heap slot).2 slot2 =
      reader.constantData heap slot2 := by
  unfold releaseConstant constantData
  cases hw : writer.constant slot with
  | none => rfl
  | some a =>
    cases hr : reader.constant slot2 with
    | none => rfl
    | some b =>
      exact Heap.read_free_ne heap a b (Ne.symm (hdisjoint slot slot2 a b hw hr))

/-- C8: after `C = L.Clone(graph)` on a layer whose non-null constants are alive, no handle
object of the clone is a handle object of the original; the constants of the original read as
before the clone was made; and for each of the four constants, overwriting or releasing the
constant in the clone leaves every constant of the original (presence and contents) unchanged,
and overwriting or releasing it in the original leaves every constant of the clone unchanged. -/
theorem C8_Clone_is_independent (layer : BatchNormalizationLayer) (graph : Graph) (heap : Heap)
    (halive : layer.ConstantsAlive heap) :
    ∃ (clone : BatchNormalizationLayer) (target : Graph) (later : Heap),
      Clone layer graph heap = Except.ok (clone, target, later) ∧
      (∀ slot slot2 a b, layer.constant slot = some a → clone.constant slot2 = some b → a ≠ b) ∧
      (∀ slot2, layer.constantData later slot2 = layer.constantData heap slot2) ∧
      (∀ slot memory slot2,
        layer.constantData (clone.overwriteConstant later slot memory) slot2 =
          layer.constantData later slot2) ∧
      (∀ slot slot2,
        layer.constantData (clone.releaseConstant later slot).2 slot2 =
          layer.constantData later slot2) ∧
      (∀ slot memory slot2,
        clone.constantData (layer.overwriteConstant later slot memory) slot2 =
          clone.constantData later slot2) ∧
      (∀ slot slot2,
        clone.constantData (layer.releaseConstant later slot).2 slot2 =
          clone.constantData later slot2) := by
  obtain ⟨clone, later, hclone, _, _, hext, hslots, _⟩ := Clone.spec layer graph heap halive
  have hold : ∀ slot a, layer.constant slot = some a → a < heap.objects.length := by
    intro slot a ha
    obtain ⟨object, hobject⟩ := halive slot a ha
    exact Heap.read_lt heap a object hobject
  have hnew : ∀ slot b, clone.constant slot = some b → heap.objects.length ≤ b := by
    intro slot b hb
    cases hc : layer.constant slot with
    | none =>
      rw [(hslots slot).1 hc] at hb
      cases hb
    | some a =>
      obtain ⟨object, hobject⟩ := halive slot a hc
      obtain ⟨fresh, hfresh, _, hle⟩ := (hslots slot).2 a object hc hobject
      rw [hfresh] at hb
      cases hb
      exact hle
  have hdisjoint : ∀ slot slot2 a b, layer.constant slot = some a →
      clone.constant slot2 = some b → a ≠ b := by
    intro slot slot2 a b ha hb hab
    have h1 := hold slot a ha
    have h2 := hnew slot2 b hb
    rw [hab] at h1
    exact absurd h1 (Nat.not_lt.mpr h2)
  have hdisjoint2 : ∀ slot slot2 a b, clone.constant slot = some a →
      layer.constant slot2 = some b → a ≠ b :=
    fun slot slot2 a b ha hb => Ne.symm (hdisjoint slot2 slot b a hb ha)
  refine ⟨clone, _, later, hclone, hdisjoint, ?_,
    constantData_overwriteConstant_of_disjoint clone layer later hdisjoint2,
    constantData_releaseConstant_of_disjoint clone layer later hdisjoint2,
    constantData_overwriteConstant_of_disjoint layer clone later hdisjoint,
    constantData_releaseConstant_of_disjoint layer clone later hdisjoint⟩
  intro slot2
  unfold constantData
  cases hc : layer.constant slot2 with
  | none => rfl
  | some a =>
    obtain ⟨object, hobject⟩ := halive slot2 a hc
    simp only [hobject]
    exact Heap.read_of_prefix heap later a object hext hobject

/-- C8, at a concrete input: the layer with mean, beta and gamma set and a null variance. -/
theorem C8_Clone_is_independent_witness :
    ∃ (clone : BatchNormalizationLayer) (target : Graph) (later : Heap),
      Clone exampleLayerWithConstants ⟨[]⟩ exampleHeap = Except.ok (clone, target, later) ∧
      (∀ slot slot2 a b, exampleLayerWithConstants.constant slot = some a →
        clone.constant slot2 = some b → a ≠ b) ∧
      (∀ slot2, exampleLayerWithConstants.constantData later slot2 =
        exampleLayerWithConstants.constantData exampleHeap slot2) ∧
      (∀ slot memory slot2,
        exampleLayerWithConstants.constantData (clone.overwriteConstant later slot memory) slot2 =
          exampleLayerWithConstants.constantData later slot2) ∧
      (∀ slot slot2,
        exampleLayerWithConstants.constantData (clone.releaseConstant later slot).2 slot2 =
          exampleLayerWithConstants.constantData later slot2) ∧
      (∀ slot memory slot2,
        clone.constantData (exampleLayerWithConstants.overwriteConstant later slot memory) slot2 =
          clone.constantData later slot2) ∧
      (∀ slot slot2,
        clone.constantData (exampleLayerWithConstants.releaseConstant later slot).2 slot2 =
          clone.constantData later slot2) :=
  C8_Clone_is_independent exampleLayerWithConstants ⟨[]⟩ exampleHeap
    exampleLayerWithConstants_alive

end Clone

section WithoutArmCompute

open NeonWorkloadFactory.NoArmCompute

/-- C10: compiled without the ArmCompute libraries, the Neon factory returns null, without
raising, from `CreateTensorHandle`, from `CreateSubTensorHandle` and from every `Create<Op>`, on
every input (so also from `CreateAddition` on `Float32` tensors of shapes `[1, 4]` and `[1, 4]`,
and from `CreateMemCopy` with an empty input list); and any sequence of `Finalize`, `Acquire` and
`Release` calls leaves every program state as it was. -/
theorem C10_without_ArmCompute_everything_is_null (parent : ITensorHandle)
    (subTensorShape : TensorShape) (subTensorOrigin : List Nat) (tensorInfo : TensorInfo)
    (descriptor : QueueDescriptor) (batchNormalization : BatchNormalizationQueueDescriptor)
    (info : WorkloadInfo) (State : Type) (state : State) (calls : List LifecycleCall) :
    ReturnsNull (CreateTensorHandle tensorInfo) ∧
    ReturnsNull (CreateSubTensorHandle parent subTensorShape subTensorOrigin) ∧
    (ReturnsNull (CreateInput descriptor info) ∧
      ReturnsNull (CreateOutput descriptor info) ∧
      ReturnsNull (CreateActivation descriptor info) ∧
      ReturnsNull (CreateSoftmax descriptor info) ∧
      ReturnsNull (CreateSplitter descriptor info) ∧
      ReturnsNull (CreateMerger descriptor info) ∧
      ReturnsNull (CreateFullyConnected descriptor info) ∧
      ReturnsNull (CreatePermute descriptor info) ∧
      ReturnsNull (CreatePooling2d descriptor info) ∧
      ReturnsNull (CreateConvolution2d descriptor info) ∧
      ReturnsNull (CreateDepthwiseConvolution2d descriptor info) ∧
      ReturnsNull (CreateNormalization descriptor info) ∧
      ReturnsNull (CreateAddition descriptor info) ∧
      ReturnsNull (CreateBatchNormalization batchNormalization info) ∧
      ReturnsNull (CreateMultiplication descriptor info) ∧
      ReturnsNull (CreateMemCopy descriptor info) ∧
      ReturnsNull (CreateResizeBilinear descriptor info) ∧
      ReturnsNull (CreateFakeQuantization descriptor info) ∧
      ReturnsNull (CreateL2Normalization descriptor info) ∧
      ReturnsNull (CreateConstant descriptor info) ∧
      ReturnsNull (CreateReshape descriptor info) ∧
      ReturnsNull (CreateFloor descriptor info) ∧
      ReturnsNull (CreateLstm descriptor info) ∧
      ReturnsNull (CreateConvertFp16ToFp32 descriptor info) ∧
      ReturnsNull (CreateConvertFp32ToFp16 descriptor info)) ∧
    ReturnsNull (CreateAddition ⟨[], []⟩ (exampleInfo DataType.Float32)) ∧
    ReturnsNull (CreateMemCopy ⟨[], []⟩ info) ∧
    (Finalize state = state ∧ Acquire state = state ∧ Release state = state) ∧
    runLifecycle calls state = state := by
  refine ⟨rfl, rfl, ?_, rfl, rfl, ⟨rfl, rfl, rfl⟩, ?_⟩
  · exact ⟨rfl, rfl, rfl, rfl, rfl, rfl, rfl, rfl, rfl, rfl, rfl, rfl, rfl, rfl, rfl, rfl, rfl,
      rfl, rfl, rfl, rfl, rfl, rfl, rfl, rfl⟩
  · induction calls with
    | nil => rfl
    | cons call rest ih =>
      cases call <;> exact ih

end WithoutArmCompute

end armnn
